import Mathlib

/-!
Shallow embedding of the `aseprite-parser` crate (files `src/lib.rs`,
`src/constants.rs`) and proofs about its specification.

Modelling conventions:

* Bytes are `Nat` values (real streams carry values `< 256`; theorems add
  that hypothesis where it matters).
* Machine integers are `Nat` (for the unsigned `u8`/`u16`/`u32`/`usize`
  fields, none of whose arithmetic here can overflow) and `Int` for the
  signed `i16`/`i32` values of the compositing engine.  Rust's `as u8`
  cast is `% 256`, `i32 >> 8` (an arithmetic shift) is Lean's floor
  division `/ 256` on `Int`, and Rust's truncating `i32` division is
  `Int.tdiv`.
* Fallible code returns `RRes`: `ok` and `err` mirror `Result<_,
  AsepriteError>`; `crash` marks a Rust panic (a failed `assert_eq!`, an
  out-of-bounds index, an `unwrap`/`expect` failure, or an arithmetic
  fault), which aborts the process instead of returning an error value.
* The underlying seekable reader is the byte list `input` together with
  the reader offset `readerPos`; `pos` is the `Parser::pos` counter.
* The external `inflate::inflate_bytes_zlib` collaborator is a parameter
  of type `Inflate` (the source invokes it as given, it is not part of
  this crate).
* `String::from_utf8` validation is abstracted: decoded strings (layer
  names) are kept as their raw byte lists.
-/

/-- `AsepriteError` from the source: `Unimplemented`, `CorruptFile`, and
the catch-all `Error` wrapper used for I/O, UTF-8 and conversion
failures. -/
inductive AsepriteError where
  | unimplemented : String → AsepriteError
  | corruptFile : String → AsepriteError
  | error : String → AsepriteError
deriving DecidableEq

/-- Outcome of running a piece of the loader: a value, a returned
`AsepriteError`, or a Rust panic (kept distinct from returned errors,
since a panic aborts the process). -/
inductive RRes (α : Type) where
  | ok : α → RRes α
  | err : AsepriteError → RRes α
  | crash : String → RRes α
deriving DecidableEq

def RRes.bind {α β : Type} : RRes α → (α → RRes β) → RRes β
  | .ok a, f => f a
  | .err e, _ => .err e
  | .crash m, _ => .crash m

theorem RRes.bind_ok {α β : Type} (a : α) (f : α → RRes β) :
    (RRes.ok a).bind f = f a := rfl

theorem RRes.bind_err {α β : Type} (e : AsepriteError) (f : α → RRes β) :
    (RRes.err e).bind f = .err e := rfl

theorem RRes.bind_crash {α β : Type} (m : String) (f : α → RRes β) :
    (RRes.crash m).bind f = .crash m := rfl

/-- The sequential cursor (`Parser` in the source): `input` models the
underlying seekable reader's contents, `readerPos` the reader's absolute
offset, and `pos` the `pos` field counting bytes consumed through
`next_n`.  (The scratch buffer `buf` of the source is not observable
and is omitted.) -/
structure Parser where
  input : List Nat
  readerPos : Nat
  pos : Nat
deriving DecidableEq

def Parser.new (input : List Nat) : Parser := ⟨input, 0, 0⟩

/-- `Parser::seek`: `self.reader.seek(SeekFrom::Start(n))`.  Only the
reader is repositioned; the `pos` counter is not touched. -/
def Parser.seek (p : Parser) (n : Nat) : Parser :=
  { p with readerPos := n }

/-- `Parser::next_n`: bumps `pos` by `n` and reads exactly `n` bytes
(`read_exact`), which fails with a wrapped I/O error when fewer than
`n` bytes remain. -/
def Parser.next_n (p : Parser) (n : Nat) : RRes (List Nat × Parser) :=
  if p.readerPos + n ≤ p.input.length then
    .ok ((p.input.drop p.readerPos).take n,
         { p with readerPos := p.readerPos + n, pos := p.pos + n })
  else .err (.error ("failed to fill whole buffer"))

def Parser.position (p : Parser) : Nat := p.pos

def Parser.skip (p : Parser) (n : Nat) : RRes Parser :=
  (p.next_n n).bind (fun x => .ok x.2)

/-- `Parser::advance_to`: consume bytes up to consumed-offset `n`;
`CorruptFile` when `n` is behind the current position. -/
def Parser.advance_to (p : Parser) (n : Nat) : RRes Parser :=
  if n < p.pos then .err (.corruptFile ("cannot advance past current position"))
  else (p.next_n (n - p.pos)).bind (fun x => .ok x.2)

/-- Little-endian value of a byte list, as `from_le_bytes`. -/
def leVal : List Nat → Nat
  | [] => 0
  | b :: bs => b + 256 * leVal bs

/-- Reinterpret a `u16` bit pattern as an `i16` (two's complement), as
`i16::from_le_bytes` does. -/
def toI16 (n : Nat) : Int := if n < 32768 then (n : Int) else (n : Int) - 65536

def Parser.nextU8 (p : Parser) : RRes (Nat × Parser) :=
  (p.next_n 1).bind (fun x => .ok (leVal x.1, x.2))

def Parser.nextU16 (p : Parser) : RRes (Nat × Parser) :=
  (p.next_n 2).bind (fun x => .ok (leVal x.1, x.2))

def Parser.nextU32 (p : Parser) : RRes (Nat × Parser) :=
  (p.next_n 4).bind (fun x => .ok (leVal x.1, x.2))

def Parser.nextI16 (p : Parser) : RRes (Int × Parser) :=
  (p.next_n 2).bind (fun x => .ok (toI16 (leVal x.1), x.2))

/-- `<String as Parse>::parse`: a `u16` length prefix followed by that
many bytes.  The UTF-8 validity check of `String::from_utf8` is
abstracted away; the string is kept as its raw bytes. -/
def Parser.nextString (p : Parser) : RRes (List Nat × Parser) :=
  (p.nextU16).bind (fun x => (x.2.next_n x.1))

-- Constants from `src/constants.rs` (the ones the loader consults).
def LAYER_VISIBLE : Nat := 1
def ASE_FILE_MAGIC : Nat := 0xA5E0
def ASE_FILE_FRAME_MAGIC : Nat := 0xF1FA
def ASE_FILE_CHUNK_FLI_COLOR2 : Nat := 4
def ASE_FILE_CHUNK_LAYER : Nat := 0x2004
def ASE_FILE_CHUNK_CEL : Nat := 0x2005
def ASE_FILE_CHUNK_COLOR_PROFILE : Nat := 0x2007
def ASE_FILE_CHUNK_TAGS : Nat := 0x2018
def ASE_FILE_CHUNK_PALETTE : Nat := 0x2019
def ASE_FILE_CHUNK_USER_DATA : Nat := 0x2020
def ASE_FILE_CHUNK_SLICE : Nat := 0x2022
def ASE_FILE_LINK_CEL : Nat := 1
def ASE_FILE_COMPRESSED_CEL : Nat := 2

/-- `AsepriteFileHeader`: the 47 bytes of decoded field data. -/
structure FileHeader where
  size : Nat
  magic : Nat
  frames : Nat
  width : Nat
  height : Nat
  depth : Nat
  flags : Nat
  speed : Nat
  next : Nat
  frit : Nat
  transparent_index : Nat
  ignore0 : Nat
  ignore1 : Nat
  ignore2 : Nat
  ncolors : Nat
  pixel_width : Nat
  pixel_height : Nat
  grid_x : Int
  grid_y : Int
  grid_width : Nat
  grid_height : Nat
deriving DecidableEq

/-- `<AsepriteFileHeader as Parse>::parse`: the fields in on-disk order. -/
def FileHeader.parse (p : Parser) : RRes (FileHeader × Parser) :=
  (p.nextU32).bind (fun (size, p) =>
  (p.nextU16).bind (fun (magic, p) =>
  (p.nextU16).bind (fun (frames, p) =>
  (p.nextU16).bind (fun (width, p) =>
  (p.nextU16).bind (fun (height, p) =>
  (p.nextU16).bind (fun (depth, p) =>
  (p.nextU32).bind (fun (flags, p) =>
  (p.nextU16).bind (fun (speed, p) =>
  (p.nextU32).bind (fun (next, p) =>
  (p.nextU32).bind (fun (frit, p) =>
  (p.nextU32).bind (fun (transparent_index, p) =>
  (p.nextU8).bind (fun (ignore0, p) =>
  (p.nextU8).bind (fun (ignore1, p) =>
  (p.nextU8).bind (fun (ignore2, p) =>
  (p.nextU16).bind (fun (ncolors, p) =>
  (p.nextU8).bind (fun (pixel_width, p) =>
  (p.nextU8).bind (fun (pixel_height, p) =>
  (p.nextI16).bind (fun (grid_x, p) =>
  (p.nextI16).bind (fun (grid_y, p) =>
  (p.nextU16).bind (fun (grid_width, p) =>
  (p.nextU16).bind (fun (grid_height, p) =>
  .ok (⟨size, magic, frames, width, height, depth, flags, speed, next, frit,
        transparent_index, ignore0, ignore1, ignore2, ncolors, pixel_width,
        pixel_height, grid_x, grid_y, grid_width, grid_height⟩, p))))))))))))))))))))))

/-- `Image`: an RGBA8 raster (4 bytes per pixel, row-major). -/
structure Image where
  width : Nat
  height : Nat
  data : List Nat
deriving DecidableEq

/-- `Image::new_from_data`, with its `assert_eq!(w*h*4, data.len())`:
a length mismatch is a panic, not a returned error. -/
def Image.new_from_data (width height : Nat) (data : List Nat) : RRes Image :=
  if width * height * 4 = data.length then .ok ⟨width, height, data⟩
  else .crash ("assertion failed")

/-- `Image::new`: a fully transparent canvas.  (The source goes through
`new_from_data`, whose assertion holds by construction.) -/
def Image.new (width height : Nat) : Image :=
  ⟨width, height, List.replicate (width * height * 4) 0⟩

/-- `mul_un8`: `t = a*b + 0x80; ((t >> 8) + t) >> 8` on `i32`.  The
arithmetic right shift `>> 8` is floor division by 256, which is `Int`
division in Lean. -/
def mul_un8 (a b : Int) : Int :=
  let t := a * b + 128
  (t / 256 + t) / 256

/-- Rust's `as u8` cast of an `i32`: the low 8 bits. -/
def u8cast (n : Int) : Nat := (n % 256).toNat

/-- `Image::draw_pixel`.  Faithful to the source, including its slip:
the bound it checks `y` against is `self.data.len() / width`, which is
`4 * height` for a well-formed image, not `height`; a `y` between
`height` and that bound reaches the pixel indexing and panics.  Also
kept: the panic on a zero `width` (division by zero) and on a row count
that does not fit in an `i32`. -/
def Image.draw_pixel (img : Image) (x y : Int) (sr sg sb sa opacity : Nat) :
    RRes Image :=
  if img.width = 0 then .crash ("attempt to divide by zero")
  else if 2147483648 ≤ img.data.length / img.width then
    .crash ("fits in a usize")
  else
    let w : Int := (img.width : Int)
    let h : Int := ((img.data.length / img.width : Nat) : Int)
    if x < 0 ∨ y < 0 ∨ x ≥ w ∨ y ≥ h then .ok img
    else
      let idx : Nat := (x.toNat + y.toNat * img.width) * 4
      if idx + 3 < img.data.length then
        let br : Int := (img.data.getD idx 0 : Int)
        let bg : Int := (img.data.getD (idx + 1) 0 : Int)
        let bb : Int := (img.data.getD (idx + 2) 0 : Int)
        let ba : Int := (img.data.getD (idx + 3) 0 : Int)
        let sa2 : Int := mul_un8 (sa : Int) (opacity : Int)
        let ra : Int := sa2 + ba - mul_un8 ba sa2
        if ra = 0 then
          .ok { img with data :=
            ((((img.data.set idx 0).set (idx + 1) 0).set (idx + 2) 0).set
              (idx + 3) 0) }
        else
          let rr : Int := br + Int.tdiv ((sr - br) * sa2) ra
          let rg : Int := bg + Int.tdiv ((sg - bg) * sa2) ra
          let rb : Int := bb + Int.tdiv ((sb - bb) * sa2) ra
          .ok { img with data :=
            ((((img.data.set idx (u8cast rr)).set (idx + 1) (u8cast rg)).set
              (idx + 2) (u8cast rb)).set (idx + 3) (u8cast ra)) }
      else .crash ("index out of bounds")

/-- Inner loop of `Image::draw`: the pixels of row `iy`, `fx` columns
remaining starting at column `ix`.  Reading `other.data[idx]` past the
end of the patch buffer is a panic. -/
def Image.drawRow (img : Image) (other : Image) (x y : Int) (iy ix fx : Nat)
    (opacity : Nat) : RRes Image :=
  match fx with
  | 0 => .ok img
  | fx + 1 =>
    let idx : Nat := (iy * other.width + ix) * 4
    if idx + 3 < other.data.length then
      (img.draw_pixel (x + (ix : Int)) (y + (iy : Int))
        (other.data.getD idx 0) (other.data.getD (idx + 1) 0)
        (other.data.getD (idx + 2) 0) (other.data.getD (idx + 3) 0)
        opacity).bind
      (fun img => Image.drawRow img other x y iy (ix + 1) fx opacity)
    else .crash ("index out of bounds")

/-- Outer loop of `Image::draw`: `fy` rows remaining starting at row `iy`. -/
def Image.drawRows (img : Image) (other : Image) (x y : Int) (iy fy : Nat)
    (opacity : Nat) : RRes Image :=
  match fy with
  | 0 => .ok img
  | fy + 1 =>
    (Image.drawRow img other x y iy 0 other.width opacity).bind
      (fun img => Image.drawRows img other x y (iy + 1) fy opacity)

/-- `Image::draw`: blend the patch `other` at offset `(x, y)`.  The
source converts the patch's `u16` dimensions to `i16` with
`try_into().unwrap()` (a panic above 32767) and iterates `for y in
y..y+h { for x in x..x+w { ... } }` over `i16` ranges, whose bound
computations panic on `i16` overflow (debug semantics, as exercised by
the crate's tests). -/
def Image.draw (img : Image) (x y : Int) (other : Image) (opacity : Nat) :
    RRes Image :=
  if 32767 < other.width ∨ 32767 < other.height then
    .crash ("out of range integral type conversion attempted")
  else if 32767 < y + (other.height : Int) then
    .crash ("attempt to add with overflow")
  else if 0 < other.height ∧ 32767 < x + (other.width : Int) then
    .crash ("attempt to add with overflow")
  else Image.drawRows img other x y 0 other.height opacity

/-- `Layer` (name kept as raw bytes, see the module comment). -/
structure Layer where
  flags : Nat
  layer_type : Nat
  child_level : Nat
  default_width : Nat
  default_height : Nat
  blend_mode : Nat
  opacity : Nat
  name : List Nat
deriving DecidableEq

/-- `Layer::visible`: `self.flags & LAYER_VISIBLE != 0`. -/
def Layer.visible (l : Layer) : Bool := l.flags &&& LAYER_VISIBLE != 0

/-- `Frame`: duration, one canvas per (known) layer, final image. -/
structure Frame where
  duration : Nat
  layers : List Image
  image : Image
deriving DecidableEq

/-- `AsepriteFile`: the decoder state threaded through the load. -/
structure AsepriteFile where
  header : FileHeader
  parser : Parser
  cur_frame : Nat
  layers : List Layer
  frames : List Frame
deriving DecidableEq

/-- The external `inflate::inflate_bytes_zlib` collaborator:
`Result<Vec<u8>, String>`. -/
def Inflate : Type := List Nat → Except String (List Nat)

/-- The cel arm of `apply_chunk`.  It can only touch the parser and the
current frame; the already decoded frames are read (for linked cels)
but never written.  Indexing `self.frames[..]`, `[..].layers[..]` or
`frame.layers[..]` out of range is a panic, as is the
`chunk_end - position()` underflow. -/
def handleCel (inflate : Inflate) (frames : List Frame) (chunk_end : Nat)
    (p : Parser) (frame : Frame) : RRes (Parser × Frame) :=
  (p.nextU16).bind (fun (layer_index, p) =>
  (p.nextI16).bind (fun (x, p) =>
  (p.nextI16).bind (fun (y, p) =>
  (p.nextU8).bind (fun (opacity, p) =>
  (p.nextU16).bind (fun (cel_type, p) =>
  (p.skip 7).bind (fun p =>
  if cel_type = ASE_FILE_COMPRESSED_CEL then
    (p.nextU16).bind (fun (w, p) =>
    (p.nextU16).bind (fun (h, p) =>
    if p.position ≤ chunk_end then
      (p.next_n (chunk_end - p.position)).bind (fun (data, p) =>
      match inflate data with
      | .error s => .err (.corruptFile s)
      | .ok data =>
        (Image.new_from_data w h data).bind (fun cel =>
        match frame.layers[layer_index]? with
        | none => .crash ("index out of bounds")
        | some canvas =>
          (canvas.draw x y cel opacity).bind (fun canvas =>
          .ok (p, { frame with layers := frame.layers.set layer_index canvas }))))
    else .crash ("attempt to subtract with overflow")))
  else if cel_type = ASE_FILE_LINK_CEL then
    (p.nextU16).bind (fun (linked_frame, p) =>
    match frames[linked_frame]? with
    | none => .crash ("index out of bounds")
    | some lf =>
      match lf.layers[layer_index]? with
      | none => .crash ("index out of bounds")
      | some cel =>
        match frame.layers[layer_index]? with
        | none => .crash ("index out of bounds")
        | some canvas =>
          (canvas.draw x y cel opacity).bind (fun canvas =>
          .ok (p, { frame with layers := frame.layers.set layer_index canvas })))
  else .err (.unimplemented ("unhandled cel type " ++ toString cel_type))))))))

/-- The layer arm of `apply_chunk`: decode a `Layer` record and append
it to the document-wide layer list. -/
def handleLayer (p : Parser) (layers : List Layer) :
    RRes (Parser × List Layer) :=
  (p.nextU16).bind (fun (flags, p) =>
  (p.nextU16).bind (fun (layer_type, p) =>
  (p.nextU16).bind (fun (child_level, p) =>
  (p.nextU16).bind (fun (default_width, p) =>
  (p.nextU16).bind (fun (default_height, p) =>
  (p.nextU16).bind (fun (blend_mode, p) =>
  (p.nextU8).bind (fun (opacity, p) =>
  (p.skip 3).bind (fun p =>
  (p.nextString).bind (fun (name, p) =>
  .ok (p, layers ++ [⟨flags, layer_type, child_level, default_width,
                      default_height, blend_mode, opacity, name⟩]))))))))))

/-- `AsepriteFile::apply_chunk`: read the chunk header, dispatch on the
chunk type (color profile, palette and legacy-FLI chunks are recognized
no-ops; cel and layer have handlers; anything else is
`Unimplemented`), then advance the cursor to the chunk's declared end. -/
def AsepriteFile.apply_chunk (inflate : Inflate) (st : AsepriteFile)
    (frame : Frame) : RRes (AsepriteFile × Frame) :=
  let chunk_pos := st.parser.position
  (st.parser.nextU32).bind (fun (chunk_size, p) =>
  (p.nextU16).bind (fun (chunk_type, p) =>
  let chunk_end := chunk_pos + chunk_size
  ((if chunk_type = ASE_FILE_CHUNK_COLOR_PROFILE then
      .ok ({ st with parser := p }, frame)
    else if chunk_type = ASE_FILE_CHUNK_PALETTE then
      .ok ({ st with parser := p }, frame)
    else if chunk_type = ASE_FILE_CHUNK_FLI_COLOR2 then
      .ok ({ st with parser := p }, frame)
    else if chunk_type = ASE_FILE_CHUNK_CEL then
      (handleCel inflate st.frames chunk_end p frame).bind (fun (p, frame) =>
        .ok ({ st with parser := p }, frame))
    else if chunk_type = ASE_FILE_CHUNK_LAYER then
      (handleLayer p st.layers).bind (fun (p, layers) =>
        .ok ({ st with parser := p, layers := layers }, frame))
    else
      .err (.unimplemented ("unhandled chunk type " ++ toString chunk_type))
   : RRes (AsepriteFile × Frame)).bind (fun (st, frame) =>
  (st.parser.advance_to chunk_end).bind (fun p =>
  .ok ({ st with parser := p }, frame))))))

/-- The `while self.layers.len() > frame.layers.len()` top-up run before
each chunk: grow the frame's canvas list to one fresh transparent
canvas per known layer. -/
def canvasTopUp (st : AsepriteFile) (frame : Frame) : Frame :=
  { frame with layers := (frame.layers ++
      List.replicate (st.layers.length - frame.layers.length)
        (Image.new st.header.width st.header.height)) }

/-- The `for _ in 0..chunks` loop of `next_frame`. -/
def chunkLoop (inflate : Inflate) :
    Nat → AsepriteFile → Frame → RRes (AsepriteFile × Frame)
  | 0, st, frame => .ok (st, frame)
  | n + 1, st, frame =>
    (AsepriteFile.apply_chunk inflate st (canvasTopUp st frame)).bind
      (fun x => chunkLoop inflate n x.1 x.2)

/-- The compositing loop at the end of `next_frame`: draw each visible
layer's canvas `frame.layers[i]` onto the frame image in declaration
order.  The indexing panics when the canvas list is shorter than the
layer list. -/
def compositeFrom (layers : List Layer) (canvases : List Image) (i : Nat)
    (img : Image) : RRes Image :=
  match layers with
  | [] => .ok img
  | l :: rest =>
    if l.visible then
      match canvases[i]? with
      | none => .crash ("index out of bounds")
      | some c =>
        (img.draw 0 0 c l.opacity).bind
          (fun img => compositeFrom rest canvases (i + 1) img)
    else compositeFrom rest canvases (i + 1) img

/-- Body of `AsepriteFile::next_frame` past its frame-count guard: bump
`cur_frame`, read the frame header (whose magic is checked with
`assert_eq!`, a panic), run the chunk loop, then composite. -/
def AsepriteFile.next_frame_body (inflate : Inflate) (st : AsepriteFile) :
    RRes (Frame × AsepriteFile) :=
  let st := { st with cur_frame := st.cur_frame + 1 }
  (st.parser.nextU32).bind (fun (_size, p) =>
  (p.nextU16).bind (fun (magic, p) =>
  (p.nextU16).bind (fun (chunks, p) =>
  (p.nextU16).bind (fun (duration, p) =>
  (p.skip 6).bind (fun p =>
  if magic = ASE_FILE_FRAME_MAGIC then
    (chunkLoop inflate chunks { st with parser := p }
        ⟨duration, [], Image.new st.header.width st.header.height⟩).bind
      (fun (st, frame) =>
      (compositeFrom st.layers frame.layers 0 frame.image).bind (fun img =>
      .ok ({ frame with image := img }, st)))
  else .crash ("assertion failed"))))))

/-- `AsepriteFile::next_frame`: `None` once `cur_frame` reaches the
header-declared frame count, otherwise decode one frame. -/
def AsepriteFile.next_frame (inflate : Inflate) (st : AsepriteFile) :
    RRes (Option Frame × AsepriteFile) :=
  if st.header.frames ≤ st.cur_frame then .ok (none, st)
  else (AsepriteFile.next_frame_body inflate st).bind
    (fun x => .ok (some x.1, x.2))

/-- The `while let Some(frame) = file.next_frame()?` loop of `parse`.
`cur_frame` grows strictly toward `header.frames` on each decoded
frame, so `header.frames + 1` units of fuel always reach the `none`
exit; the out-of-fuel arm is unreachable. -/
def parseLoop (inflate : Inflate) : Nat → AsepriteFile → RRes AsepriteFile
  | 0, _ => .err (.corruptFile ("frame loop did not terminate"))
  | fuel + 1, st =>
    match AsepriteFile.next_frame inflate st with
    | .ok (none, st) => .ok st
    | .ok (some f, st) => parseLoop inflate fuel { st with frames := st.frames ++ [f] }
    | .err e => .err e
    | .crash m => .crash m

/-- The header phase of `AsepriteFile::parse`: decode the file header,
check its magic with `assert_eq!` (a panic on mismatch, not a returned
error), and seek the reader to absolute offset 128. -/
def AsepriteFile.parseStart (input : List Nat) : RRes (FileHeader × Parser) :=
  (FileHeader.parse (Parser.new input)).bind (fun (header, p) =>
  if header.magic = ASE_FILE_MAGIC then .ok (header, p.seek 128)
  else .crash ("assertion failed"))

/-- `AsepriteFile::parse`: header phase, then the frame loop. -/
def AsepriteFile.parse (inflate : Inflate) (input : List Nat) :
    RRes AsepriteFile :=
  (AsepriteFile.parseStart input).bind (fun (header, p) =>
  parseLoop inflate (header.frames + 1)
    { header := header, parser := p, cur_frame := 0, layers := [], frames := [] })

-- Byte-level encoders for the little-endian fields (used to quantify over
-- all inputs containing a given chunk), and concrete inputs used by the
-- counterexamples and witnesses below.

def u8Bytes (v : Nat) : List Nat := [v]

def u16Bytes (v : Nat) : List Nat := [v % 256, v / 256]

def u32Bytes (v : Nat) : List Nat := [v % 256, v / 256 % 256, v / 65536 % 256, v / 16777216]

/-- An inflate collaborator that is never successfully invoked. -/
def inflate0 : Inflate := fun _ => .error ("inflate not invoked")

/-- An inflate collaborator that decompresses everything to zero bytes. -/
def inflateEmpty : Inflate := fun _ => .ok []

/-- An all-zero file header value. -/
def hdr0 : FileHeader := ⟨0, 0, 0, 0, 0, 0, 0, 0, 0, 0, 0, 0, 0, 0, 0, 0, 0, 0, 0, 0, 0⟩

/-- An all-zero file header declaring one frame. -/
def hdr1 : FileHeader := ⟨0, 0, 1, 0, 0, 0, 0, 0, 0, 0, 0, 0, 0, 0, 0, 0, 0, 0, 0, 0, 0⟩

/-- A fresh frame with no per-layer canvases over a 1 by 1 canvas. -/
def frame00 : Frame := ⟨0, [], Image.new 1 1⟩

/-- A fresh frame with one per-layer canvas over a 1 by 1 canvas. -/
def frame01 : Frame := ⟨0, [Image.new 1 1], Image.new 1 1⟩

/-- A linked-mode cel chunk referencing frame 0. -/
def c2input : List Nat :=
  [] ++ (u32Bytes 24 ++ (u16Bytes ASE_FILE_CHUNK_CEL ++ (u16Bytes 0 ++
    (u16Bytes 0 ++ (u16Bytes 0 ++ (u8Bytes 255 ++ (u16Bytes ASE_FILE_LINK_CEL ++
    (List.replicate 7 0 ++ (u16Bytes 0 ++ [])))))))))

/-- Decoder state positioned at `c2input` while decoding frame 0
(no frame has been completed yet). -/
def c2st : AsepriteFile := ⟨hdr0, ⟨c2input, 0, 0⟩, 0, [], []⟩

/-- A tag-table chunk (type 0x2018). -/
def c5input : List Nat := [] ++ (u32Bytes 6 ++ (u16Bytes ASE_FILE_CHUNK_TAGS ++ []))

def c5st : AsepriteFile := ⟨hdr0, ⟨c5input, 0, 0⟩, 0, [], []⟩

/-- A compressed-mode cel chunk for a 1 by 1 cel whose compressed payload
is the single byte 7. -/
def c6input : List Nat :=
  [] ++ (u32Bytes 27 ++ (u16Bytes ASE_FILE_CHUNK_CEL ++ (u16Bytes 0 ++
    (u16Bytes 0 ++ (u16Bytes 0 ++ (u8Bytes 255 ++
    (u16Bytes ASE_FILE_COMPRESSED_CEL ++ (List.replicate 7 0 ++ (u16Bytes 1 ++
    (u16Bytes 1 ++ ([7] ++ [])))))))))))

def c6st : AsepriteFile := ⟨hdr0, ⟨c6input, 0, 0⟩, 0, [], []⟩

/-- 47 zero bytes: a file header whose magic is 0, not 0xA5E0. -/
def c8input47 : List Nat := List.replicate 47 0

/-- A frame header whose magic is 0, not 0xF1FA. -/
def c8frameBytes : List Nat :=
  [] ++ (u32Bytes 16 ++ (u16Bytes 0 ++ (u16Bytes 0 ++ (u16Bytes 0 ++
    (List.replicate 6 0 ++ [])))))

def c8st : AsepriteFile := ⟨hdr1, ⟨c8frameBytes, 0, 0⟩, 0, [], []⟩

/-- 47 header bytes: magic 0xA5E0, one frame, 1 by 1 canvas, depth 32. -/
def c9hdr : List Nat :=
  [0, 0, 0, 0, 0xE0, 0xA5, 1, 0, 1, 0, 1, 0, 32, 0, 0, 0, 0, 0, 0, 0,
   0, 0, 0, 0, 0, 0, 0, 0, 0, 0, 0, 0, 0, 0, 0, 0, 0, 0, 0, 0, 0, 0, 0, 0,
   0, 0, 0]

/-- A frame header declaring one chunk. -/
def c9frameBytes : List Nat := [38, 0, 0, 0, 0xFA, 0xF1, 1, 0, 0, 0, 0, 0, 0, 0, 0, 0]

/-- A layer chunk (type 0x2004) defining one visible layer with an empty name. -/
def c9chunk : List Nat :=
  [24, 0, 0, 0, 0x04, 0x20, 1, 0, 0, 0, 0, 0, 0, 0, 0, 0, 0, 0, 255, 0, 0, 0, 0, 0]

/-- A file whose single frame consists of exactly one chunk: a visible
layer definition (and no cel). -/
def c9input : List Nat := c9hdr ++ List.replicate 81 0 ++ c9frameBytes ++ c9chunk

/-- A frame header declaring zero chunks. -/
def c4frameBytes : List Nat := [16, 0, 0, 0, 0xFA, 0xF1, 0, 0, 0, 0, 0, 0, 0, 0, 0, 0]

/-- A one-frame file with three trailing junk bytes after the last frame. -/
def c4input : List Nat := c9hdr ++ List.replicate 81 0 ++ c4frameBytes ++ [9, 9, 9]

/-- The document that loading `c4input` produces. -/
def c4file : AsepriteFile :=
  ⟨⟨0, 0xA5E0, 1, 1, 1, 32, 0, 0, 0, 0, 0, 0, 0, 0, 0, 0, 0, 0, 0, 0, 0⟩,
   ⟨c4input, 144, 63⟩, 1, [], [frame00]⟩

/-- 47 header bytes whose magic is 0xA5E0 and whose other fields are zero. -/
def c10input : List Nat := [0, 0, 0, 0, 0xE0, 0xA5] ++ List.replicate 41 0

/-- The header decoded from `c10input`. -/
def c10fh : FileHeader := ⟨0, 0xA5E0, 0, 0, 0, 0, 0, 0, 0, 0, 0, 0, 0, 0, 0, 0, 0, 0, 0, 0, 0⟩

-- Inversion lemmas: what a successful read says about the parser state.

theorem RRes.bind_eq_ok {α β : Type} {r : RRes α} {f : α → RRes β} {b : β}
    (h : r.bind f = .ok b) : ∃ a, r = .ok a ∧ f a = .ok b := by
  cases r with
  | ok a => exact ⟨a, rfl, h⟩
  | err e => simp [RRes.bind] at h
  | crash m => simp [RRes.bind] at h

theorem Parser.next_n_eq_ok {p : Parser} {n : Nat} {bs : List Nat} {p' : Parser}
    (h : p.next_n n = .ok (bs, p')) :
    p.readerPos + n ≤ p.input.length ∧
    bs = (p.input.drop p.readerPos).take n ∧
    p' = { p with readerPos := p.readerPos + n, pos := p.pos + n } := by
  unfold Parser.next_n at h
  split at h
  · next hc => injection h with h'; injection h' with h1 h2; exact ⟨hc, h1.symm, h2.symm⟩
  · simp at h

theorem Parser.nextU32_eq_ok {p : Parser} {v : Nat} {p' : Parser}
    (h : p.nextU32 = .ok (v, p')) :
    p.readerPos + 4 ≤ p.input.length ∧
    v = leVal ((p.input.drop p.readerPos).take 4) ∧
    p' = { p with readerPos := p.readerPos + 4, pos := p.pos + 4 } := by
  unfold Parser.nextU32 at h
  obtain ⟨⟨bs, q⟩, h1, h2⟩ := RRes.bind_eq_ok h
  obtain ⟨hle, hbs, hq⟩ := Parser.next_n_eq_ok h1
  injection h2 with h2'
  injection h2' with hv hp
  exact ⟨hle, by rw [← hv, hbs], by rw [← hp, hq]⟩

theorem Parser.nextU16_eq_ok {p : Parser} {v : Nat} {p' : Parser}
    (h : p.nextU16 = .ok (v, p')) :
    p.readerPos + 2 ≤ p.input.length ∧
    v = leVal ((p.input.drop p.readerPos).take 2) ∧
    p' = { p with readerPos := p.readerPos + 2, pos := p.pos + 2 } := by
  unfold Parser.nextU16 at h
  obtain ⟨⟨bs, q⟩, h1, h2⟩ := RRes.bind_eq_ok h
  obtain ⟨hle, hbs, hq⟩ := Parser.next_n_eq_ok h1
  injection h2 with h2'
  injection h2' with hv hp
  exact ⟨hle, by rw [← hv, hbs], by rw [← hp, hq]⟩

theorem Parser.nextU8_eq_ok {p : Parser} {v : Nat} {p' : Parser}
    (h : p.nextU8 = .ok (v, p')) :
    p.readerPos + 1 ≤ p.input.length ∧
    v = leVal ((p.input.drop p.readerPos).take 1) ∧
    p' = { p with readerPos := p.readerPos + 1, pos := p.pos + 1 } := by
  unfold Parser.nextU8 at h
  obtain ⟨⟨bs, q⟩, h1, h2⟩ := RRes.bind_eq_ok h
  obtain ⟨hle, hbs, hq⟩ := Parser.next_n_eq_ok h1
  injection h2 with h2'
  injection h2' with hv hp
  exact ⟨hle, by rw [← hv, hbs], by rw [← hp, hq]⟩

theorem Parser.nextI16_eq_ok {p : Parser} {v : Int} {p' : Parser}
    (h : p.nextI16 = .ok (v, p')) :
    p.readerPos + 2 ≤ p.input.length ∧
    v = toI16 (leVal ((p.input.drop p.readerPos).take 2)) ∧
    p' = { p with readerPos := p.readerPos + 2, pos := p.pos + 2 } := by
  unfold Parser.nextI16 at h
  obtain ⟨⟨bs, q⟩, h1, h2⟩ := RRes.bind_eq_ok h
  obtain ⟨hle, hbs, hq⟩ := Parser.next_n_eq_ok h1
  injection h2 with h2'
  injection h2' with hv hp
  exact ⟨hle, by rw [← hv, hbs], by rw [← hp, hq]⟩

theorem Parser.skip_eq_ok {p : Parser} {n : Nat} {p' : Parser}
    (h : p.skip n = .ok p') :
    p.readerPos + n ≤ p.input.length ∧
    p' = { p with readerPos := p.readerPos + n, pos := p.pos + n } := by
  unfold Parser.skip at h
  obtain ⟨⟨bs, q⟩, h1, h2⟩ := RRes.bind_eq_ok h
  obtain ⟨hle, _, hq⟩ := Parser.next_n_eq_ok h1
  injection h2 with h2'
  exact ⟨hle, by rw [← h2', hq]⟩

theorem FileHeader.parse_eq_ok {p : Parser} {fh : FileHeader} {p' : Parser}
    (h : FileHeader.parse p = .ok (fh, p')) :
    p'.pos = p.pos + 47 ∧ p'.readerPos = p.readerPos + 47 ∧ p'.input = p.input ∧
    fh.magic = leVal ((p.input.drop (p.readerPos + 4)).take 2) ∧
    fh.frames = leVal ((p.input.drop (p.readerPos + 6)).take 2) := by
  unfold FileHeader.parse at h
  obtain ⟨⟨v1, q1⟩, s1, h⟩ := RRes.bind_eq_ok h
  obtain ⟨le1, hv1, hq1⟩ := Parser.nextU32_eq_ok s1
  subst hq1
  obtain ⟨⟨v2, q2⟩, s2, h⟩ := RRes.bind_eq_ok h
  obtain ⟨le2, hv2, hq2⟩ := Parser.nextU16_eq_ok s2
  subst hq2
  obtain ⟨⟨v3, q3⟩, s3, h⟩ := RRes.bind_eq_ok h
  obtain ⟨le3, hv3, hq3⟩ := Parser.nextU16_eq_ok s3
  subst hq3
  obtain ⟨⟨v4, q4⟩, s4, h⟩ := RRes.bind_eq_ok h
  obtain ⟨le4, hv4, hq4⟩ := Parser.nextU16_eq_ok s4
  subst hq4
  obtain ⟨⟨v5, q5⟩, s5, h⟩ := RRes.bind_eq_ok h
  obtain ⟨le5, hv5, hq5⟩ := Parser.nextU16_eq_ok s5
  subst hq5
  obtain ⟨⟨v6, q6⟩, s6, h⟩ := RRes.bind_eq_ok h
  obtain ⟨le6, hv6, hq6⟩ := Parser.nextU16_eq_ok s6
  subst hq6
  obtain ⟨⟨v7, q7⟩, s7, h⟩ := RRes.bind_eq_ok h
  obtain ⟨le7, hv7, hq7⟩ := Parser.nextU32_eq_ok s7
  subst hq7
  obtain ⟨⟨v8, q8⟩, s8, h⟩ := RRes.bind_eq_ok h
  obtain ⟨le8, hv8, hq8⟩ := Parser.nextU16_eq_ok s8
  subst hq8
  obtain ⟨⟨v9, q9⟩, s9, h⟩ := RRes.bind_eq_ok h
  obtain ⟨le9, hv9, hq9⟩ := Parser.nextU32_eq_ok s9
  subst hq9
  obtain ⟨⟨v10, q10⟩, s10, h⟩ := RRes.bind_eq_ok h
  obtain ⟨le10, hv10, hq10⟩ := Parser.nextU32_eq_ok s10
  subst hq10
  obtain ⟨⟨v11, q11⟩, s11, h⟩ := RRes.bind_eq_ok h
  obtain ⟨le11, hv11, hq11⟩ := Parser.nextU32_eq_ok s11
  subst hq11
  obtain ⟨⟨v12, q12⟩, s12, h⟩ := RRes.bind_eq_ok h
  obtain ⟨le12, hv12, hq12⟩ := Parser.nextU8_eq_ok s12
  subst hq12
  obtain ⟨⟨v13, q13⟩, s13, h⟩ := RRes.bind_eq_ok h
  obtain ⟨le13, hv13, hq13⟩ := Parser.nextU8_eq_ok s13
  subst hq13
  obtain ⟨⟨v14, q14⟩, s14, h⟩ := RRes.bind_eq_ok h
  obtain ⟨le14, hv14, hq14⟩ := Parser.nextU8_eq_ok s14
  subst hq14
  obtain ⟨⟨v15, q15⟩, s15, h⟩ := RRes.bind_eq_ok h
  obtain ⟨le15, hv15, hq15⟩ := Parser.nextU16_eq_ok s15
  subst hq15
  obtain ⟨⟨v16, q16⟩, s16, h⟩ := RRes.bind_eq_ok h
  obtain ⟨le16, hv16, hq16⟩ := Parser.nextU8_eq_ok s16
  subst hq16
  obtain ⟨⟨v17, q17⟩, s17, h⟩ := RRes.bind_eq_ok h
  obtain ⟨le17, hv17, hq17⟩ := Parser.nextU8_eq_ok s17
  subst hq17
  obtain ⟨⟨v18, q18⟩, s18, h⟩ := RRes.bind_eq_ok h
  obtain ⟨le18, hv18, hq18⟩ := Parser.nextI16_eq_ok s18
  subst hq18
  obtain ⟨⟨v19, q19⟩, s19, h⟩ := RRes.bind_eq_ok h
  obtain ⟨le19, hv19, hq19⟩ := Parser.nextI16_eq_ok s19
  subst hq19
  obtain ⟨⟨v20, q20⟩, s20, h⟩ := RRes.bind_eq_ok h
  obtain ⟨le20, hv20, hq20⟩ := Parser.nextU16_eq_ok s20
  subst hq20
  obtain ⟨⟨v21, q21⟩, s21, h⟩ := RRes.bind_eq_ok h
  obtain ⟨le21, hv21, hq21⟩ := Parser.nextU16_eq_ok s21
  subst hq21
  injection h with h'
  injection h' with hfh hp'
  subst hp'
  subst hfh
  subst hv2
  subst hv3
  refine ⟨?_, ?_, ?_, ?_, ?_⟩ <;> dsimp only <;> norm_num




theorem leVal_u16Bytes (v : Nat) : leVal (u16Bytes v) = v := by
  simp only [u16Bytes, leVal]
  omega

theorem leVal_u8Bytes (v : Nat) : leVal (u8Bytes v) = v := by
  simp only [u8Bytes, leVal]
  omega

theorem leVal_u32Bytes (v : Nat) : leVal (u32Bytes v) = v := by
  simp only [u32Bytes, leVal]
  omega

theorem Parser.next_n_encoded {p : Parser} (pre chunk rest : List Nat)
    (hin : p.input = pre ++ (chunk ++ rest)) (hr : p.readerPos = pre.length) :
    p.next_n chunk.length =
      .ok (chunk, { p with readerPos := p.readerPos + chunk.length,
                           pos := p.pos + chunk.length }) := by
  unfold Parser.next_n
  rw [if_pos]
  · rw [hin, hr, List.drop_left, List.take_left]
  · rw [hin, hr]
    simp [List.length_append]

theorem Parser.nextU8_encoded {p : Parser} (pre rest : List Nat) (v : Nat)
    (hin : p.input = pre ++ (u8Bytes v ++ rest))
    (hr : p.readerPos = pre.length) :
    p.nextU8 = .ok (v, { p with readerPos := p.readerPos + 1, pos := p.pos + 1 }) := by
  unfold Parser.nextU8
  have h := Parser.next_n_encoded pre _ rest hin hr
  rw [show (u8Bytes v).length = 1 from rfl] at h
  rw [h]
  simp [RRes.bind, leVal_u8Bytes]

theorem Parser.nextU16_encoded {p : Parser} (pre rest : List Nat) (v : Nat)
    (hin : p.input = pre ++ (u16Bytes v ++ rest))
    (hr : p.readerPos = pre.length) :
    p.nextU16 = .ok (v, { p with readerPos := p.readerPos + 2, pos := p.pos + 2 }) := by
  unfold Parser.nextU16
  have h := Parser.next_n_encoded pre _ rest hin hr
  rw [show (u16Bytes v).length = 2 from rfl] at h
  rw [h]
  simp [RRes.bind, leVal_u16Bytes]

theorem Parser.nextU32_encoded {p : Parser} (pre rest : List Nat) (v : Nat)
    (hin : p.input = pre ++ (u32Bytes v ++ rest))
    (hr : p.readerPos = pre.length) :
    p.nextU32 = .ok (v, { p with readerPos := p.readerPos + 4, pos := p.pos + 4 }) := by
  unfold Parser.nextU32
  have h := Parser.next_n_encoded pre _ rest hin hr
  rw [show (u32Bytes v).length = 4 from rfl] at h
  rw [h]
  simp [RRes.bind, leVal_u32Bytes]

theorem Parser.nextI16_encoded {p : Parser} (pre rest : List Nat) (v : Nat)
    (hin : p.input = pre ++ (u16Bytes v ++ rest))
    (hr : p.readerPos = pre.length) :
    p.nextI16 = .ok (toI16 v,
      { p with readerPos := p.readerPos + 2, pos := p.pos + 2 }) := by
  unfold Parser.nextI16
  have h := Parser.next_n_encoded pre _ rest hin hr
  rw [show (u16Bytes v).length = 2 from rfl] at h
  rw [h]
  simp [RRes.bind, leVal_u16Bytes]

theorem Parser.skip_encoded {p : Parser} (pre chunk rest : List Nat)
    (hin : p.input = pre ++ (chunk ++ rest)) (hr : p.readerPos = pre.length) :
    p.skip chunk.length =
      .ok { p with readerPos := p.readerPos + chunk.length,
                   pos := p.pos + chunk.length } := by
  unfold Parser.skip
  rw [Parser.next_n_encoded pre chunk rest hin hr]
  simp [RRes.bind]

theorem Parser.next_n_encoded' {p : Parser} (pre chunk rest : List Nat) {n : Nat}
    (hn : n = chunk.length) (hin : p.input = pre ++ (chunk ++ rest))
    (hr : p.readerPos = pre.length) :
    p.next_n n =
      .ok (chunk, { p with readerPos := p.readerPos + n, pos := p.pos + n }) := by
  subst hn
  exact Parser.next_n_encoded pre chunk rest hin hr
set_option maxHeartbeats 2000000 in
theorem FileHeader.parse_new_eval (input : List Nat) (h47 : 47 ≤ input.length) :
    FileHeader.parse (Parser.new input) = .ok
      ({ size := leVal (input.take 4), magic := leVal ((input.drop 4).take 2),
         frames := leVal ((input.drop 6).take 2), width := leVal ((input.drop 8).take 2),
         height := leVal ((input.drop 10).take 2), depth := leVal ((input.drop 12).take 2),
         flags := leVal ((input.drop 14).take 4), speed := leVal ((input.drop 18).take 2),
         next := leVal ((input.drop 20).take 4), frit := leVal ((input.drop 24).take 4),
         transparent_index := leVal ((input.drop 28).take 4),
         ignore0 := leVal ((input.drop 32).take 1), ignore1 := leVal ((input.drop 33).take 1),
         ignore2 := leVal ((input.drop 34).take 1), ncolors := leVal ((input.drop 35).take 2),
         pixel_width := leVal ((input.drop 37).take 1),
         pixel_height := leVal ((input.drop 38).take 1),
         grid_x := toI16 (leVal ((input.drop 39).take 2)),
         grid_y := toI16 (leVal ((input.drop 41).take 2)),
         grid_width := leVal ((input.drop 43).take 2),
         grid_height := leVal ((input.drop 45).take 2) },
       ⟨input, 47, 47⟩) := by
  have h1 : 0 + 4 ≤ input.length := by omega
  have h2 : 0 + 4 + 2 ≤ input.length := by omega
  have h3 : 0 + 4 + 2 + 2 ≤ input.length := by omega
  have h4 : 0 + 4 + 2 + 2 + 2 ≤ input.length := by omega
  have h5 : 0 + 4 + 2 + 2 + 2 + 2 ≤ input.length := by omega
  have h6 : 0 + 4 + 2 + 2 + 2 + 2 + 2 ≤ input.length := by omega
  have h7 : 0 + 4 + 2 + 2 + 2 + 2 + 2 + 4 ≤ input.length := by omega
  have h8 : 0 + 4 + 2 + 2 + 2 + 2 + 2 + 4 + 2 ≤ input.length := by omega
  have h9 : 0 + 4 + 2 + 2 + 2 + 2 + 2 + 4 + 2 + 4 ≤ input.length := by omega
  have h10 : 0 + 4 + 2 + 2 + 2 + 2 + 2 + 4 + 2 + 4 + 4 ≤ input.length := by omega
  have h11 : 0 + 4 + 2 + 2 + 2 + 2 + 2 + 4 + 2 + 4 + 4 + 4 ≤ input.length := by omega
  have h12 : 0 + 4 + 2 + 2 + 2 + 2 + 2 + 4 + 2 + 4 + 4 + 4 + 1 ≤ input.length := by omega
  have h13 : 0 + 4 + 2 + 2 + 2 + 2 + 2 + 4 + 2 + 4 + 4 + 4 + 1 + 1 ≤ input.length := by omega
  have h14 : 0 + 4 + 2 + 2 + 2 + 2 + 2 + 4 + 2 + 4 + 4 + 4 + 1 + 1 + 1 ≤ input.length := by omega
  have h15 : 0 + 4 + 2 + 2 + 2 + 2 + 2 + 4 + 2 + 4 + 4 + 4 + 1 + 1 + 1 + 2 ≤ input.length := by omega
  have h16 : 0 + 4 + 2 + 2 + 2 + 2 + 2 + 4 + 2 + 4 + 4 + 4 + 1 + 1 + 1 + 2 + 1 ≤ input.length := by omega
  have h17 : 0 + 4 + 2 + 2 + 2 + 2 + 2 + 4 + 2 + 4 + 4 + 4 + 1 + 1 + 1 + 2 + 1 + 1 ≤ input.length := by omega
  have h18 : 0 + 4 + 2 + 2 + 2 + 2 + 2 + 4 + 2 + 4 + 4 + 4 + 1 + 1 + 1 + 2 + 1 + 1 + 2 ≤ input.length := by omega
  have h19 : 0 + 4 + 2 + 2 + 2 + 2 + 2 + 4 + 2 + 4 + 4 + 4 + 1 + 1 + 1 + 2 + 1 + 1 + 2 + 2 ≤ input.length := by omega
  have h20 : 0 + 4 + 2 + 2 + 2 + 2 + 2 + 4 + 2 + 4 + 4 + 4 + 1 + 1 + 1 + 2 + 1 + 1 + 2 + 2 + 2 ≤ input.length := by omega
  have h21 : 0 + 4 + 2 + 2 + 2 + 2 + 2 + 4 + 2 + 4 + 4 + 4 + 1 + 1 + 1 + 2 + 1 + 1 + 2 + 2 + 2 + 2 ≤ input.length := by omega
  simp only [FileHeader.parse, Parser.new, Parser.nextU32, Parser.nextU16,
    Parser.nextU8, Parser.nextI16, Parser.next_n, RRes.bind, if_pos h1, if_pos h2,
    if_pos h3, if_pos h4, if_pos h5, if_pos h6, if_pos h7, if_pos h8, if_pos h9,
    if_pos h10, if_pos h11, if_pos h12, if_pos h13, if_pos h14, if_pos h15,
    if_pos h16, if_pos h17, if_pos h18, if_pos h19, if_pos h20, if_pos h21]
  norm_num

theorem AsepriteFile.apply_chunk_eq_ok {inflate : Inflate} {st : AsepriteFile}
    {frame : Frame} {st' : AsepriteFile} {frame' : Frame}
    (h : AsepriteFile.apply_chunk inflate st frame = .ok (st', frame')) :
    st'.header = st.header ∧ st'.cur_frame = st.cur_frame ∧
      st'.frames = st.frames := by
  unfold AsepriteFile.apply_chunk at h
  obtain ⟨⟨csize, p1⟩, h1, h⟩ := RRes.bind_eq_ok h
  obtain ⟨⟨ctype, p2⟩, h2, h⟩ := RRes.bind_eq_ok h
  obtain ⟨⟨st0, fr0⟩, hd, h⟩ := RRes.bind_eq_ok h
  obtain ⟨p3, ha, h⟩ := RRes.bind_eq_ok h
  injection h with h'
  injection h' with hst hfr
  subst hst
  have hst0 : st0.header = st.header ∧ st0.cur_frame = st.cur_frame ∧
      st0.frames = st.frames := by
    split at hd
    · injection hd with hd'
      injection hd' with he _
      subst he
      exact ⟨rfl, rfl, rfl⟩
    · split at hd
      · injection hd with hd'
        injection hd' with he _
        subst he
        exact ⟨rfl, rfl, rfl⟩
      · split at hd
        · injection hd with hd'
          injection hd' with he _
          subst he
          exact ⟨rfl, rfl, rfl⟩
        · split at hd
          · obtain ⟨⟨pc, frc⟩, _, hok⟩ := RRes.bind_eq_ok hd
            injection hok with hok'
            injection hok' with he _
            subst he
            exact ⟨rfl, rfl, rfl⟩
          · split at hd
            · obtain ⟨⟨pc, ls⟩, _, hok⟩ := RRes.bind_eq_ok hd
              injection hok with hok'
              injection hok' with he _
              subst he
              exact ⟨rfl, rfl, rfl⟩
            · exact absurd hd (by simp)
  exact hst0

theorem chunkLoop_eq_ok {inflate : Inflate} :
    ∀ {n : Nat} {st : AsepriteFile} {frame : Frame} {st' : AsepriteFile}
      {frame' : Frame},
      chunkLoop inflate n st frame = .ok (st', frame') →
      st'.header = st.header ∧ st'.cur_frame = st.cur_frame ∧
        st'.frames = st.frames := by
  intro n
  induction n with
  | zero =>
    intro st frame st' frame' h
    unfold chunkLoop at h
    injection h with h'
    injection h' with he _
    subst he
    exact ⟨rfl, rfl, rfl⟩
  | succ n ih =>
    intro st frame st' frame' h
    unfold chunkLoop at h
    obtain ⟨⟨st1, fr1⟩, h1, h2⟩ := RRes.bind_eq_ok h
    have e1 := AsepriteFile.apply_chunk_eq_ok h1
    have e2 := ih h2
    exact ⟨e2.1.trans e1.1, e2.2.1.trans e1.2.1, e2.2.2.trans e1.2.2⟩

theorem AsepriteFile.next_frame_body_eq_ok {inflate : Inflate}
    {st : AsepriteFile} {f : Frame} {st' : AsepriteFile}
    (h : AsepriteFile.next_frame_body inflate st = .ok (f, st')) :
    st'.header = st.header ∧ st'.cur_frame = st.cur_frame + 1 ∧
      st'.frames = st.frames := by
  simp only [AsepriteFile.next_frame_body] at h
  obtain ⟨⟨sz, p1⟩, _, h⟩ := RRes.bind_eq_ok h
  obtain ⟨⟨mg, p2⟩, _, h⟩ := RRes.bind_eq_ok h
  obtain ⟨⟨ch, p3⟩, _, h⟩ := RRes.bind_eq_ok h
  obtain ⟨⟨du, p4⟩, _, h⟩ := RRes.bind_eq_ok h
  obtain ⟨p5, _, h⟩ := RRes.bind_eq_ok h
  split at h
  · obtain ⟨⟨st1, fr1⟩, hcl, h⟩ := RRes.bind_eq_ok h
    obtain ⟨img, _, h⟩ := RRes.bind_eq_ok h
    injection h with h'
    injection h' with _ hst
    subst hst
    have := chunkLoop_eq_ok hcl
    exact this
  · exact absurd h (by simp)

theorem AsepriteFile.next_frame_eq_none {inflate : Inflate}
    {st st' : AsepriteFile}
    (h : AsepriteFile.next_frame inflate st = .ok (none, st')) :
    st' = st ∧ st.header.frames ≤ st.cur_frame := by
  unfold AsepriteFile.next_frame at h
  split at h
  · injection h with h'
    injection h' with _ he
    exact ⟨he.symm, by assumption⟩
  · obtain ⟨⟨f, st1⟩, _, hok⟩ := RRes.bind_eq_ok h
    injection hok with hok'
    injection hok' with hnone _
    exact absurd hnone (by simp)

theorem AsepriteFile.next_frame_eq_some {inflate : Inflate}
    {st : AsepriteFile} {f : Frame} {st' : AsepriteFile}
    (h : AsepriteFile.next_frame inflate st = .ok (some f, st')) :
    st.cur_frame < st.header.frames ∧ st'.header = st.header ∧
      st'.cur_frame = st.cur_frame + 1 ∧ st'.frames = st.frames := by
  unfold AsepriteFile.next_frame at h
  split at h
  · injection h with h'
    injection h' with hnone _
    exact absurd hnone (by simp)
  · obtain ⟨⟨f1, st1⟩, hbody, hok⟩ := RRes.bind_eq_ok h
    injection hok with hok'
    injection hok' with _ he
    subst he
    have := AsepriteFile.next_frame_body_eq_ok hbody
    exact ⟨by omega, this⟩

theorem parseLoop_eq_ok {inflate : Inflate} :
    ∀ {fuel : Nat} {st : AsepriteFile} {file : AsepriteFile},
      parseLoop inflate fuel st = .ok file →
      st.frames.length = st.cur_frame →
      st.cur_frame ≤ st.header.frames →
      file.frames.length = file.header.frames := by
  intro fuel
  induction fuel with
  | zero =>
    intro st file h _ _
    exact absurd h (by simp [parseLoop])
  | succ fuel ih =>
    intro st file h hlen hle
    unfold parseLoop at h
    cases hnf : AsepriteFile.next_frame inflate st with
    | ok x =>
      obtain ⟨of, st1⟩ := x
      rw [hnf] at h
      cases of with
      | none =>
        simp only at h
        injection h with he
        subst he
        obtain ⟨he, hge⟩ := AsepriteFile.next_frame_eq_none hnf
        subst he
        omega
      | some f =>
        simp only at h
        obtain ⟨hlt, hh, hc, hf⟩ := AsepriteFile.next_frame_eq_some hnf
        refine ih h (by simp [hf, hc, hlen]) ?_
        show st1.cur_frame ≤ st1.header.frames
        rw [hh, hc]
        omega
    | err e =>
      rw [hnf] at h
      exact absurd h (by simp)
    | crash m =>
      rw [hnf] at h
      exact absurd h (by simp)

theorem List.set_getD_self (l : List Nat) (i : Nat) :
    l.set i (l.getD i 0) = l := by
  induction l generalizing i with
  | nil => simp
  | cons a t ih =>
    cases i with
    | zero => simp [List.getD]
    | succ j => simp [List.getD_cons_succ, ← List.getD_eq_getElem?_getD, ih j]

theorem getD_lt_256 {l : List Nat} (hb : ∀ b ∈ l, b < 256) (i : Nat) :
    l.getD i 0 < 256 := by
  rw [List.getD_eq_getElem?_getD]
  cases h : l[i]? with
  | none => simp
  | some v =>
    have hv : v ∈ l := List.getElem?_mem h
    simpa using hb v hv

theorem mul_un8_zero_right (a : Int) : mul_un8 a 0 = 0 := by
  norm_num [mul_un8]

theorem u8cast_byte (v : Nat) (hv : v < 256) : u8cast (v : Int) = v := by
  unfold u8cast
  rw [Int.emod_eq_of_lt (by positivity) (by exact_mod_cast hv), Int.toNat_natCast]

theorem draw_pixel_opacity_zero (img : Image) (x y : Int) (sr sg sb sa : Nat)
    (hb : ∀ b ∈ img.data, b < 256)
    (hz : ∀ i < img.data.length, img.data.getD (4 * i + 3) 0 = 0 →
      img.data.getD (4 * i) 0 = 0 ∧ img.data.getD (4 * i + 1) 0 = 0 ∧
        img.data.getD (4 * i + 2) 0 = 0) :
    img.draw_pixel x y sr sg sb sa 0 = .ok img ∨
      ∃ m, img.draw_pixel x y sr sg sb sa 0 = .crash m := by
  simp only [Image.draw_pixel, Nat.cast_zero, mul_un8_zero_right, zero_add,
    sub_zero, mul_zero, Int.zero_tdiv, add_zero]
  by_cases hw : img.width = 0
  · simp only [if_pos hw]
    exact .inr ⟨_, rfl⟩
  simp only [if_neg hw]
  by_cases hs : 2147483648 ≤ img.data.length / img.width
  · simp only [if_pos hs]
    exact .inr ⟨_, rfl⟩
  simp only [if_neg hs]
  by_cases h3 : x < 0 ∨ y < 0 ∨ x ≥ (img.width : Int) ∨
      y ≥ ((img.data.length / img.width : Nat) : Int)
  · simp only [if_pos h3]
    exact .inl (by simp)
  simp only [if_neg h3]
  by_cases hi : (x.toNat + y.toNat * img.width) * 4 + 3 < img.data.length
  · simp only [if_pos hi]
    have hki : (x.toNat + y.toNat * img.width) * 4 =
        4 * (x.toNat + y.toNat * img.width) := Nat.mul_comm _ _
    rw [hki] at hi ⊢
    set k := x.toNat + y.toNat * img.width with hk
    by_cases hba : (↑(img.data.getD (4 * k + 3) 0) : Int) = 0
    · simp only [if_pos hba]
      left
      have hklen : k < img.data.length := by omega
      obtain ⟨e0, e1, e2⟩ := hz k hklen (Nat.cast_eq_zero.mp hba)
      have s0 : img.data.set (4 * k) 0 = img.data := by
        have h := List.set_getD_self img.data (4 * k)
        rwa [e0] at h
      have s1 : img.data.set (4 * k + 1) 0 = img.data := by
        have h := List.set_getD_self img.data (4 * k + 1)
        rwa [e1] at h
      have s2 : img.data.set (4 * k + 2) 0 = img.data := by
        have h := List.set_getD_self img.data (4 * k + 2)
        rwa [e2] at h
      have s3 : img.data.set (4 * k + 3) 0 = img.data := by
        have h := List.set_getD_self img.data (4 * k + 3)
        rwa [Nat.cast_eq_zero.mp hba] at h
      rw [s0, s1, s2, s3]
    · simp only [if_neg hba]
      left
      rw [u8cast_byte _ (getD_lt_256 hb (4 * k)),
          u8cast_byte _ (getD_lt_256 hb (4 * k + 1)),
          u8cast_byte _ (getD_lt_256 hb (4 * k + 2)),
          u8cast_byte _ (getD_lt_256 hb (4 * k + 3))]
      rw [List.set_getD_self, List.set_getD_self, List.set_getD_self,
          List.set_getD_self]
  · simp only [if_neg hi]
    exact .inr ⟨_, rfl⟩

theorem drawRow_opacity_zero (img other : Image) (x y : Int) (iy : Nat)
    (hb : ∀ b ∈ img.data, b < 256)
    (hz : ∀ i < img.data.length, img.data.getD (4 * i + 3) 0 = 0 →
      img.data.getD (4 * i) 0 = 0 ∧ img.data.getD (4 * i + 1) 0 = 0 ∧
        img.data.getD (4 * i + 2) 0 = 0) :
    ∀ fx ix, Image.drawRow img other x y iy ix fx 0 = .ok img ∨
      ∃ m, Image.drawRow img other x y iy ix fx 0 = .crash m := by
  intro fx
  induction fx with
  | zero => intro ix; exact .inl rfl
  | succ fx ih =>
    intro ix
    simp only [Image.drawRow]
    split
    · rcases draw_pixel_opacity_zero img (x + (ix : Int)) (y + (iy : Int))
          (other.data.getD ((iy * other.width + ix) * 4) 0)
          (other.data.getD ((iy * other.width + ix) * 4 + 1) 0)
          (other.data.getD ((iy * other.width + ix) * 4 + 2) 0)
          (other.data.getD ((iy * other.width + ix) * 4 + 3) 0) hb hz with
        hok | ⟨m, hcr⟩
      · rw [hok]
        simp only [RRes.bind]
        exact ih (ix + 1)
      · rw [hcr]
        exact .inr ⟨m, rfl⟩
    · exact .inr ⟨_, rfl⟩

theorem drawRows_opacity_zero (img other : Image) (x y : Int)
    (hb : ∀ b ∈ img.data, b < 256)
    (hz : ∀ i < img.data.length, img.data.getD (4 * i + 3) 0 = 0 →
      img.data.getD (4 * i) 0 = 0 ∧ img.data.getD (4 * i + 1) 0 = 0 ∧
        img.data.getD (4 * i + 2) 0 = 0) :
    ∀ fy iy, Image.drawRows img other x y iy fy 0 = .ok img ∨
      ∃ m, Image.drawRows img other x y iy fy 0 = .crash m := by
  intro fy
  induction fy with
  | zero => intro iy; exact .inl rfl
  | succ fy ih =>
    intro iy
    simp only [Image.drawRows]
    rcases drawRow_opacity_zero img other x y iy hb hz other.width 0 with
      hok | ⟨m, hcr⟩
    · rw [hok]
      simp only [RRes.bind]
      exact ih (iy + 1)
    · rw [hcr]
      exact .inr ⟨m, rfl⟩

/-- C1: for all integers `a`, `b` in `[0, 255]`, the blending helper
`mul_un8`, computed as `t = a*b + 128; ((t >> 8) + t) >> 8`, returns
exactly `round(a*b/255)` (the nearest integer; no tie can occur). -/
theorem mul_un8_eq_round (a b : Int) (ha0 : 0 ≤ a) (ha : a ≤ 255)
    (hb0 : 0 ≤ b) (hb : b ≤ 255) :
    mul_un8 a b = round ((a * b : ℚ) / 255) := by
  have hp0 : 0 ≤ a * b := mul_nonneg ha0 hb0
  have hp1 : a * b ≤ 65025 := by nlinarith
  have hcast : (a : ℚ) * (b : ℚ) / 255 + 1 / 2 =
      ((2 * (a * b) + 255 : ℤ) : ℚ) / ((510 : ℕ) : ℚ) := by
    push_cast
    ring
  rw [round_eq, hcast, Rat.floor_intCast_div_natCast]
  show mul_un8 a b = (2 * (a * b) + 255) / ((510 : ℕ) : ℤ)
  simp only [mul_un8]
  omega

theorem mul_un8_eq_round_witness :
    (0 : Int) ≤ 3 ∧ (3 : Int) ≤ 255 ∧ (0 : Int) ≤ 250 ∧ (250 : Int) ≤ 255 ∧
      mul_un8 3 250 = round ((3 * 250 : ℚ) / 255) :=
  ⟨by decide, by decide, by decide, by decide,
   mul_un8_eq_round 3 250 (by decide) (by decide) (by decide) (by decide)⟩

/-- C3: evaluation of the code at the failing input.  `draw_pixel` on a
1 by 1 image at `(x, y) = (0, 1)` has `y` outside the canvas
(`y >= height`), yet it panics with an out-of-bounds index instead of
silently dropping the write: the guard compares `y` against
`data.len() / width = 4 * height`, not against `height`. -/
theorem draw_pixel_oob_y_crash :
    Image.draw_pixel ⟨1, 1, [0, 0, 0, 0]⟩ 0 1 0 0 0 0 255 =
      .crash ("index out of bounds") := by rfl

set_option maxRecDepth 100000 in
/-- C9: evaluation of the code at the failing input.  A file whose single
frame consists of exactly one chunk, a visible layer definition, panics
at frame finalization: the canvas top-up runs only before each chunk, so
the layer added by the frame's last chunk has no canvas, and the
compositing loop indexes `frame.layers[0]` out of bounds. -/
theorem trailing_layer_chunk_crash :
    AsepriteFile.parse inflate0 c9input = .crash ("index out of bounds") := by rfl

/-- C4: whenever the load succeeds, the returned document holds exactly
`header.frames` frames, independent of any bytes remaining in the
stream after the last declared frame. -/
theorem parse_frames_length (inflate : Inflate) (input : List Nat)
    (file : AsepriteFile) (h : AsepriteFile.parse inflate input = .ok file) :
    file.frames.length = file.header.frames := by
  unfold AsepriteFile.parse at h
  obtain ⟨⟨hd, p⟩, _, h⟩ := RRes.bind_eq_ok h
  exact parseLoop_eq_ok h rfl (Nat.zero_le _)

set_option maxRecDepth 100000 in
theorem parse_frames_length_witness :
    AsepriteFile.parse inflate0 c4input = .ok c4file ∧
      c4file.frames.length = c4file.header.frames :=
  ⟨rfl, parse_frames_length inflate0 c4input c4file rfl⟩

/-- C10: `Parser::seek` repositions only the reader and leaves
`position()` unchanged; `position()` counts cumulative bytes consumed
through `next_n`; and after the load's single seek to absolute offset
128 the position reports 47, the header bytes actually read (while the
reader sits at 128). -/
theorem position_counts_consumed_bytes :
    (∀ (p : Parser) (n : Nat), (p.seek n).pos = p.pos ∧
        (p.seek n).input = p.input ∧ (p.seek n).readerPos = n) ∧
    (∀ (p : Parser) (n : Nat) (bs : List Nat) (p' : Parser),
        p.next_n n = .ok (bs, p') → p'.pos = p.pos + n) ∧
    (∀ (input : List Nat) (fh : FileHeader) (p : Parser),
        AsepriteFile.parseStart input = .ok (fh, p) →
        p.pos = 47 ∧ p.readerPos = 128) := by
  refine ⟨fun p n => ⟨rfl, rfl, rfl⟩, ?_, ?_⟩
  · intro p n bs p' h
    obtain ⟨_, _, hp⟩ := Parser.next_n_eq_ok h
    rw [hp]
  · intro input fh p h
    unfold AsepriteFile.parseStart at h
    obtain ⟨⟨fh0, p0⟩, hparse, h⟩ := RRes.bind_eq_ok h
    dsimp only at h
    split at h
    · injection h with h'
      injection h' with _ hp
      obtain ⟨hpos, hrd, hinp, _, _⟩ := FileHeader.parse_eq_ok hparse
      subst hp
      refine ⟨?_, rfl⟩
      show p0.pos = 47
      simpa [Parser.new] using hpos
    · exact absurd h (by simp)

theorem position_counts_consumed_bytes_witness :
    ((Parser.new [0]).seek 5).pos = (Parser.new [0]).pos ∧
    (Parser.new [0]).next_n 1 = .ok ([0], ⟨[0], 1, 1⟩) ∧
    (⟨[0], 1, 1⟩ : Parser).pos = (Parser.new [0]).pos + 1 ∧
    AsepriteFile.parseStart c10input = .ok (c10fh, ⟨c10input, 128, 47⟩) ∧
    (⟨c10input, 128, 47⟩ : Parser).pos = 47 ∧
    (⟨c10input, 128, 47⟩ : Parser).readerPos = 128 :=
  ⟨(position_counts_consumed_bytes.1 (Parser.new [0]) 5).1, rfl,
   position_counts_consumed_bytes.2.1 (Parser.new [0]) 1 [0] ⟨[0], 1, 1⟩ rfl,
   rfl,
   (position_counts_consumed_bytes.2.2 c10input c10fh ⟨c10input, 128, 47⟩ rfl).1,
   (position_counts_consumed_bytes.2.2 c10input c10fh ⟨c10input, 128, 47⟩ rfl).2⟩

theorem linked_cel_forward_panics (inflate : Inflate) (st : AsepriteFile)
    (frame : Frame) (pre junk rest : List Nat) (csize li xx yy op lf : Nat)
    (hj : junk.length = 7)
    (hfwd : st.frames.length ≤ lf)
    (hin : st.parser.input = pre ++ (u32Bytes csize ++ (u16Bytes ASE_FILE_CHUNK_CEL ++
      (u16Bytes li ++ (u16Bytes xx ++ (u16Bytes yy ++ (u8Bytes op ++
      (u16Bytes ASE_FILE_LINK_CEL ++ (junk ++ (u16Bytes lf ++ rest))))))))))
    (hr : st.parser.readerPos = pre.length) :
    AsepriteFile.apply_chunk inflate st frame = .crash ("index out of bounds") := by
  simp only [AsepriteFile.apply_chunk, Parser.position]
  rw [Parser.nextU32_encoded (pre) (u16Bytes ASE_FILE_CHUNK_CEL ++ (u16Bytes li ++ (u16Bytes xx ++ (u16Bytes yy ++ (u8Bytes op ++ (u16Bytes ASE_FILE_LINK_CEL ++ (junk ++ (u16Bytes lf ++ rest)))))))) (csize)
        hin hr]
  simp only [RRes.bind_ok]
  rw [Parser.nextU16_encoded (pre ++ u32Bytes csize) (u16Bytes li ++ (u16Bytes xx ++ (u16Bytes yy ++ (u8Bytes op ++ (u16Bytes ASE_FILE_LINK_CEL ++ (junk ++ (u16Bytes lf ++ rest))))))) (ASE_FILE_CHUNK_CEL)
        (by simp [hin, List.append_assoc]) (by simp [hr, u8Bytes, u16Bytes, u32Bytes] <;> omega)]
  simp only [RRes.bind_ok]
  simp only [if_neg (show ¬(ASE_FILE_CHUNK_CEL = ASE_FILE_CHUNK_COLOR_PROFILE) by decide),
      if_neg (show ¬(ASE_FILE_CHUNK_CEL = ASE_FILE_CHUNK_PALETTE) by decide),
      if_neg (show ¬(ASE_FILE_CHUNK_CEL = ASE_FILE_CHUNK_FLI_COLOR2) by decide),
      if_pos (show ASE_FILE_CHUNK_CEL = ASE_FILE_CHUNK_CEL from rfl), if_true]
  simp only [handleCel]
  rw [Parser.nextU16_encoded (pre ++ u32Bytes csize ++ u16Bytes ASE_FILE_CHUNK_CEL) (u16Bytes xx ++ (u16Bytes yy ++ (u8Bytes op ++ (u16Bytes ASE_FILE_LINK_CEL ++ (junk ++ (u16Bytes lf ++ rest)))))) (li)
        (by simp [hin, List.append_assoc]) (by simp [hr, u8Bytes, u16Bytes, u32Bytes] <;> omega)]
  simp only [RRes.bind_ok]
  rw [Parser.nextI16_encoded (pre ++ u32Bytes csize ++ u16Bytes ASE_FILE_CHUNK_CEL ++ u16Bytes li) (u16Bytes yy ++ (u8Bytes op ++ (u16Bytes ASE_FILE_LINK_CEL ++ (junk ++ (u16Bytes lf ++ rest))))) (xx)
        (by simp [hin, List.append_assoc]) (by simp [hr, u8Bytes, u16Bytes, u32Bytes] <;> omega)]
  simp only [RRes.bind_ok]
  rw [Parser.nextI16_encoded (pre ++ u32Bytes csize ++ u16Bytes ASE_FILE_CHUNK_CEL ++ u16Bytes li ++ u16Bytes xx) (u8Bytes op ++ (u16Bytes ASE_FILE_LINK_CEL ++ (junk ++ (u16Bytes lf ++ rest)))) (yy)
        (by simp [hin, List.append_assoc]) (by simp [hr, u8Bytes, u16Bytes, u32Bytes] <;> omega)]
  simp only [RRes.bind_ok]
  rw [Parser.nextU8_encoded (pre ++ u32Bytes csize ++ u16Bytes ASE_FILE_CHUNK_CEL ++ u16Bytes li ++ u16Bytes xx ++ u16Bytes yy) (u16Bytes ASE_FILE_LINK_CEL ++ (junk ++ (u16Bytes lf ++ rest))) (op)
        (by simp [hin, List.append_assoc]) (by simp [hr, u8Bytes, u16Bytes, u32Bytes] <;> omega)]
  simp only [RRes.bind_ok]
  rw [Parser.nextU16_encoded (pre ++ u32Bytes csize ++ u16Bytes ASE_FILE_CHUNK_CEL ++ u16Bytes li ++ u16Bytes xx ++ u16Bytes yy ++ u8Bytes op) (junk ++ (u16Bytes lf ++ rest)) (ASE_FILE_LINK_CEL)
        (by simp [hin, List.append_assoc]) (by simp [hr, u8Bytes, u16Bytes, u32Bytes] <;> omega)]
  simp only [RRes.bind_ok]
  rw [show (7 : Nat) = junk.length from hj.symm,
      Parser.skip_encoded (pre ++ u32Bytes csize ++ u16Bytes ASE_FILE_CHUNK_CEL ++ u16Bytes li ++ u16Bytes xx ++ u16Bytes yy ++ u8Bytes op ++ u16Bytes ASE_FILE_LINK_CEL) (junk) (u16Bytes lf ++ rest)
        (by simp [hin, List.append_assoc]) (by simp [hr, u8Bytes, u16Bytes, u32Bytes] <;> omega)]
  simp only [RRes.bind_ok]
  simp only [if_neg (show ¬(ASE_FILE_LINK_CEL = ASE_FILE_COMPRESSED_CEL) by decide),
      if_pos (show ASE_FILE_LINK_CEL = ASE_FILE_LINK_CEL from rfl), if_true]
  rw [Parser.nextU16_encoded (pre ++ u32Bytes csize ++ u16Bytes ASE_FILE_CHUNK_CEL ++ u16Bytes li ++ u16Bytes xx ++ u16Bytes yy ++ u8Bytes op ++ u16Bytes ASE_FILE_LINK_CEL ++ junk) (rest) (lf)
        (by simp [hin, List.append_assoc]) (by simp [hr, u8Bytes, u16Bytes, u32Bytes] <;> omega)]
  simp only [RRes.bind_ok]
  rw [List.getElem?_eq_none hfwd]
  simp only [RRes.bind_crash]

/-- C5 (amended): the dispatcher recognizes only the layer, cel, color
profile, palette and legacy-FLI chunk types; a tag-table (0x2018),
slice (0x2022) or user-data (0x2020) chunk hits the catch-all arm and
the load fails with `UnimplementedError` naming the chunk type. -/
theorem structural_chunks_unimplemented (inflate : Inflate)
    (st : AsepriteFile) (frame : Frame) (pre rest : List Nat) (csize t : Nat)
    (ht : t = ASE_FILE_CHUNK_TAGS ∨ t = ASE_FILE_CHUNK_SLICE ∨
      t = ASE_FILE_CHUNK_USER_DATA)
    (hin : st.parser.input = pre ++ (u32Bytes csize ++ (u16Bytes t ++ rest)))
    (hr : st.parser.readerPos = pre.length) :
    AsepriteFile.apply_chunk inflate st frame =
      .err (.unimplemented ("unhandled chunk type " ++ toString t)) := by
  have hne1 : ¬(t = ASE_FILE_CHUNK_COLOR_PROFILE) := by
    rcases ht with h | h | h <;> subst h <;> decide
  have hne2 : ¬(t = ASE_FILE_CHUNK_PALETTE) := by
    rcases ht with h | h | h <;> subst h <;> decide
  have hne3 : ¬(t = ASE_FILE_CHUNK_FLI_COLOR2) := by
    rcases ht with h | h | h <;> subst h <;> decide
  have hne4 : ¬(t = ASE_FILE_CHUNK_CEL) := by
    rcases ht with h | h | h <;> subst h <;> decide
  have hne5 : ¬(t = ASE_FILE_CHUNK_LAYER) := by
    rcases ht with h | h | h <;> subst h <;> decide
  simp only [AsepriteFile.apply_chunk, Parser.position]
  rw [Parser.nextU32_encoded (pre) (u16Bytes t ++ rest) (csize)
        hin hr]
  simp only [RRes.bind_ok]
  rw [Parser.nextU16_encoded (pre ++ u32Bytes csize) (rest) (t)
        (by simp [hin, List.append_assoc]) (by simp [hr, u8Bytes, u16Bytes, u32Bytes] <;> omega)]
  simp only [RRes.bind_ok]
  rw [if_neg hne1, if_neg hne2, if_neg hne3, if_neg hne4, if_neg hne5]
  simp only [RRes.bind_err]

theorem linked_cel_forward_crash_cx :
    AsepriteFile.apply_chunk inflate0 c2st frame00 =
      .crash ("index out of bounds") := by rfl

theorem linked_cel_forward_panics_witness :
    (List.replicate 7 0).length = 7 ∧ c2st.frames.length ≤ 0 ∧
      AsepriteFile.apply_chunk inflate0 c2st frame00 =
        .crash ("index out of bounds") :=
  ⟨rfl, Nat.le_refl 0,
   linked_cel_forward_panics inflate0 c2st frame00 [] (List.replicate 7 0) []
     24 0 0 0 255 0 rfl (Nat.le_refl 0) rfl rfl⟩

theorem tags_chunk_unimplemented_cx :
    AsepriteFile.apply_chunk inflate0 c5st frame00 =
      .err (.unimplemented ("unhandled chunk type 8216")) := by rfl

theorem structural_chunks_unimplemented_witness :
    (ASE_FILE_CHUNK_TAGS = ASE_FILE_CHUNK_TAGS ∨
      ASE_FILE_CHUNK_TAGS = ASE_FILE_CHUNK_SLICE ∨
      ASE_FILE_CHUNK_TAGS = ASE_FILE_CHUNK_USER_DATA) ∧
    AsepriteFile.apply_chunk inflate0 c5st frame00 =
      .err (.unimplemented ("unhandled chunk type " ++ toString ASE_FILE_CHUNK_TAGS)) :=
  ⟨Or.inl rfl,
   structural_chunks_unimplemented inflate0 c5st frame00 [] [] 6
     ASE_FILE_CHUNK_TAGS (Or.inl rfl) rfl rfl⟩

/-- C6 (amended): for a compressed-mode cel chunk, a decompression
failure is reported as a returned `CorruptFileError`; but a decompressed
byte length different from `width*height*4` trips the
`assert_eq!` in `Image::new_from_data` and crashes (a panic, not a
returned error). -/
theorem compressed_cel_failure_modes :
    (∀ (inflate : Inflate) (st : AsepriteFile) (frame : Frame)
        (pre junk comp rest : List Nat) (csize li xx yy op w h : Nat)
        (s : String),
        junk.length = 7 → comp.length + 26 = csize →
        inflate comp = .error s →
        st.parser.input = pre ++ (u32Bytes csize ++ (u16Bytes ASE_FILE_CHUNK_CEL ++
          (u16Bytes li ++ (u16Bytes xx ++ (u16Bytes yy ++ (u8Bytes op ++
          (u16Bytes ASE_FILE_COMPRESSED_CEL ++ (junk ++ (u16Bytes w ++
          (u16Bytes h ++ (comp ++ rest))))))))))) →
        st.parser.readerPos = pre.length →
        AsepriteFile.apply_chunk inflate st frame = .err (.corruptFile s)) ∧
    (∀ (inflate : Inflate) (st : AsepriteFile) (frame : Frame)
        (pre junk comp out rest : List Nat) (csize li xx yy op w h : Nat),
        junk.length = 7 → comp.length + 26 = csize →
        inflate comp = .ok out →
        ¬(w * h * 4 = out.length) →
        st.parser.input = pre ++ (u32Bytes csize ++ (u16Bytes ASE_FILE_CHUNK_CEL ++
          (u16Bytes li ++ (u16Bytes xx ++ (u16Bytes yy ++ (u8Bytes op ++
          (u16Bytes ASE_FILE_COMPRESSED_CEL ++ (junk ++ (u16Bytes w ++
          (u16Bytes h ++ (comp ++ rest))))))))))) →
        st.parser.readerPos = pre.length →
        AsepriteFile.apply_chunk inflate st frame =
          .crash ("assertion failed")) := by
  constructor
  · intro inflate st frame pre junk comp rest csize li xx yy op w h s
      hj hclen hinf hin hr
    simp only [AsepriteFile.apply_chunk, Parser.position]
    rw [Parser.nextU32_encoded (pre) (u16Bytes ASE_FILE_CHUNK_CEL ++ (u16Bytes li ++ (u16Bytes xx ++ (u16Bytes yy ++ (u8Bytes op ++ (u16Bytes ASE_FILE_COMPRESSED_CEL ++ (junk ++ (u16Bytes w ++ (u16Bytes h ++ (comp ++ rest)))))))))) (csize)
          hin hr]
    simp only [RRes.bind_ok]
    rw [Parser.nextU16_encoded (pre ++ u32Bytes csize) (u16Bytes li ++ (u16Bytes xx ++ (u16Bytes yy ++ (u8Bytes op ++ (u16Bytes ASE_FILE_COMPRESSED_CEL ++ (junk ++ (u16Bytes w ++ (u16Bytes h ++ (comp ++ rest))))))))) (ASE_FILE_CHUNK_CEL)
          (by simp [hin, List.append_assoc]) (by simp [hr, u8Bytes, u16Bytes, u32Bytes] <;> omega)]
    simp only [RRes.bind_ok]
    simp only [if_neg (show ¬(ASE_FILE_CHUNK_CEL = ASE_FILE_CHUNK_COLOR_PROFILE) by decide),
        if_neg (show ¬(ASE_FILE_CHUNK_CEL = ASE_FILE_CHUNK_PALETTE) by decide),
        if_neg (show ¬(ASE_FILE_CHUNK_CEL = ASE_FILE_CHUNK_FLI_COLOR2) by decide),
        if_pos (show ASE_FILE_CHUNK_CEL = ASE_FILE_CHUNK_CEL from rfl), if_true]
    simp only [handleCel, Parser.position]
    rw [Parser.nextU16_encoded (pre ++ u32Bytes csize ++ u16Bytes ASE_FILE_CHUNK_CEL) (u16Bytes xx ++ (u16Bytes yy ++ (u8Bytes op ++ (u16Bytes ASE_FILE_COMPRESSED_CEL ++ (junk ++ (u16Bytes w ++ (u16Bytes h ++ (comp ++ rest)))))))) (li)
          (by simp [hin, List.append_assoc]) (by simp [hr, u8Bytes, u16Bytes, u32Bytes] <;> omega)]
    simp only [RRes.bind_ok]
    rw [Parser.nextI16_encoded (pre ++ u32Bytes csize ++ u16Bytes ASE_FILE_CHUNK_CEL ++ u16Bytes li) (u16Bytes yy ++ (u8Bytes op ++ (u16Bytes ASE_FILE_COMPRESSED_CEL ++ (junk ++ (u16Bytes w ++ (u16Bytes h ++ (comp ++ rest))))))) (xx)
          (by simp [hin, List.append_assoc]) (by simp [hr, u8Bytes, u16Bytes, u32Bytes] <;> omega)]
    simp only [RRes.bind_ok]
    rw [Parser.nextI16_encoded (pre ++ u32Bytes csize ++ u16Bytes ASE_FILE_CHUNK_CEL ++ u16Bytes li ++ u16Bytes xx) (u8Bytes op ++ (u16Bytes ASE_FILE_COMPRESSED_CEL ++ (junk ++ (u16Bytes w ++ (u16Bytes h ++ (comp ++ rest)))))) (yy)
          (by simp [hin, List.append_assoc]) (by simp [hr, u8Bytes, u16Bytes, u32Bytes] <;> omega)]
    simp only [RRes.bind_ok]
    rw [Parser.nextU8_encoded (pre ++ u32Bytes csize ++ u16Bytes ASE_FILE_CHUNK_CEL ++ u16Bytes li ++ u16Bytes xx ++ u16Bytes yy) (u16Bytes ASE_FILE_COMPRESSED_CEL ++ (junk ++ (u16Bytes w ++ (u16Bytes h ++ (comp ++ rest))))) (op)
          (by simp [hin, List.append_assoc]) (by simp [hr, u8Bytes, u16Bytes, u32Bytes] <;> omega)]
    simp only [RRes.bind_ok]
    rw [Parser.nextU16_encoded (pre ++ u32Bytes csize ++ u16Bytes ASE_FILE_CHUNK_CEL ++ u16Bytes li ++ u16Bytes xx ++ u16Bytes yy ++ u8Bytes op) (junk ++ (u16Bytes w ++ (u16Bytes h ++ (comp ++ rest)))) (ASE_FILE_COMPRESSED_CEL)
          (by simp [hin, List.append_assoc]) (by simp [hr, u8Bytes, u16Bytes, u32Bytes] <;> omega)]
    simp only [RRes.bind_ok]
    rw [show (7 : Nat) = junk.length from hj.symm,
        Parser.skip_encoded (pre ++ u32Bytes csize ++ u16Bytes ASE_FILE_CHUNK_CEL ++ u16Bytes li ++ u16Bytes xx ++ u16Bytes yy ++ u8Bytes op ++ u16Bytes ASE_FILE_COMPRESSED_CEL) (junk) (u16Bytes w ++ (u16Bytes h ++ (comp ++ rest)))
          (by simp [hin, List.append_assoc]) (by simp [hr, u8Bytes, u16Bytes, u32Bytes] <;> omega)]
    simp only [RRes.bind_ok]
    simp only [if_pos (show ASE_FILE_COMPRESSED_CEL = ASE_FILE_COMPRESSED_CEL from rfl), if_true]
    rw [Parser.nextU16_encoded (pre ++ u32Bytes csize ++ u16Bytes ASE_FILE_CHUNK_CEL ++ u16Bytes li ++ u16Bytes xx ++ u16Bytes yy ++ u8Bytes op ++ u16Bytes ASE_FILE_COMPRESSED_CEL ++ junk) (u16Bytes h ++ (comp ++ rest)) (w)
          (by simp [hin, List.append_assoc]) (by simp [hr, u8Bytes, u16Bytes, u32Bytes] <;> omega)]
    simp only [RRes.bind_ok]
    rw [Parser.nextU16_encoded (pre ++ u32Bytes csize ++ u16Bytes ASE_FILE_CHUNK_CEL ++ u16Bytes li ++ u16Bytes xx ++ u16Bytes yy ++ u8Bytes op ++ u16Bytes ASE_FILE_COMPRESSED_CEL ++ junk ++ u16Bytes w) (comp ++ rest) (h)
          (by simp [hin, List.append_assoc]) (by simp [hr, u8Bytes, u16Bytes, u32Bytes] <;> omega)]
    simp only [RRes.bind_ok]
    split
    case isFalse hge => exact absurd (by omega) hge
    case isTrue hle =>
      rw [Parser.next_n_encoded' (pre ++ u32Bytes csize ++ u16Bytes ASE_FILE_CHUNK_CEL ++ u16Bytes li ++ u16Bytes xx ++ u16Bytes yy ++ u8Bytes op ++ u16Bytes ASE_FILE_COMPRESSED_CEL ++ junk ++ u16Bytes w ++ u16Bytes h) (comp) (rest)
            (by omega)
            (by simp [hin, List.append_assoc]) (by simp [hr, u8Bytes, u16Bytes, u32Bytes] <;> omega)]
      simp only [RRes.bind_ok]
      rw [hinf]
      dsimp only
      simp only [RRes.bind_err]
  · intro inflate st frame pre junk comp out rest csize li xx yy op w h
      hj hclen hinf hbad hin hr
    simp only [AsepriteFile.apply_chunk, Parser.position]
    rw [Parser.nextU32_encoded (pre) (u16Bytes ASE_FILE_CHUNK_CEL ++ (u16Bytes li ++ (u16Bytes xx ++ (u16Bytes yy ++ (u8Bytes op ++ (u16Bytes ASE_FILE_COMPRESSED_CEL ++ (junk ++ (u16Bytes w ++ (u16Bytes h ++ (comp ++ rest)))))))))) (csize)
          hin hr]
    simp only [RRes.bind_ok]
    rw [Parser.nextU16_encoded (pre ++ u32Bytes csize) (u16Bytes li ++ (u16Bytes xx ++ (u16Bytes yy ++ (u8Bytes op ++ (u16Bytes ASE_FILE_COMPRESSED_CEL ++ (junk ++ (u16Bytes w ++ (u16Bytes h ++ (comp ++ rest))))))))) (ASE_FILE_CHUNK_CEL)
          (by simp [hin, List.append_assoc]) (by simp [hr, u8Bytes, u16Bytes, u32Bytes] <;> omega)]
    simp only [RRes.bind_ok]
    simp only [if_neg (show ¬(ASE_FILE_CHUNK_CEL = ASE_FILE_CHUNK_COLOR_PROFILE) by decide),
        if_neg (show ¬(ASE_FILE_CHUNK_CEL = ASE_FILE_CHUNK_PALETTE) by decide),
        if_neg (show ¬(ASE_FILE_CHUNK_CEL = ASE_FILE_CHUNK_FLI_COLOR2) by decide),
        if_pos (show ASE_FILE_CHUNK_CEL = ASE_FILE_CHUNK_CEL from rfl), if_true]
    simp only [handleCel, Parser.position]
    rw [Parser.nextU16_encoded (pre ++ u32Bytes csize ++ u16Bytes ASE_FILE_CHUNK_CEL) (u16Bytes xx ++ (u16Bytes yy ++ (u8Bytes op ++ (u16Bytes ASE_FILE_COMPRESSED_CEL ++ (junk ++ (u16Bytes w ++ (u16Bytes h ++ (comp ++ rest)))))))) (li)
          (by simp [hin, List.append_assoc]) (by simp [hr, u8Bytes, u16Bytes, u32Bytes] <;> omega)]
    simp only [RRes.bind_ok]
    rw [Parser.nextI16_encoded (pre ++ u32Bytes csize ++ u16Bytes ASE_FILE_CHUNK_CEL ++ u16Bytes li) (u16Bytes yy ++ (u8Bytes op ++ (u16Bytes ASE_FILE_COMPRESSED_CEL ++ (junk ++ (u16Bytes w ++ (u16Bytes h ++ (comp ++ rest))))))) (xx)
          (by simp [hin, List.append_assoc]) (by simp [hr, u8Bytes, u16Bytes, u32Bytes] <;> omega)]
    simp only [RRes.bind_ok]
    rw [Parser.nextI16_encoded (pre ++ u32Bytes csize ++ u16Bytes ASE_FILE_CHUNK_CEL ++ u16Bytes li ++ u16Bytes xx) (u8Bytes op ++ (u16Bytes ASE_FILE_COMPRESSED_CEL ++ (junk ++ (u16Bytes w ++ (u16Bytes h ++ (comp ++ rest)))))) (yy)
          (by simp [hin, List.append_assoc]) (by simp [hr, u8Bytes, u16Bytes, u32Bytes] <;> omega)]
    simp only [RRes.bind_ok]
    rw [Parser.nextU8_encoded (pre ++ u32Bytes csize ++ u16Bytes ASE_FILE_CHUNK_CEL ++ u16Bytes li ++ u16Bytes xx ++ u16Bytes yy) (u16Bytes ASE_FILE_COMPRESSED_CEL ++ (junk ++ (u16Bytes w ++ (u16Bytes h ++ (comp ++ rest))))) (op)
          (by simp [hin, List.append_assoc]) (by simp [hr, u8Bytes, u16Bytes, u32Bytes] <;> omega)]
    simp only [RRes.bind_ok]
    rw [Parser.nextU16_encoded (pre ++ u32Bytes csize ++ u16Bytes ASE_FILE_CHUNK_CEL ++ u16Bytes li ++ u16Bytes xx ++ u16Bytes yy ++ u8Bytes op) (junk ++ (u16Bytes w ++ (u16Bytes h ++ (comp ++ rest)))) (ASE_FILE_COMPRESSED_CEL)
          (by simp [hin, List.append_assoc]) (by simp [hr, u8Bytes, u16Bytes, u32Bytes] <;> omega)]
    simp only [RRes.bind_ok]
    rw [show (7 : Nat) = junk.length from hj.symm,
        Parser.skip_encoded (pre ++ u32Bytes csize ++ u16Bytes ASE_FILE_CHUNK_CEL ++ u16Bytes li ++ u16Bytes xx ++ u16Bytes yy ++ u8Bytes op ++ u16Bytes ASE_FILE_COMPRESSED_CEL) (junk) (u16Bytes w ++ (u16Bytes h ++ (comp ++ rest)))
          (by simp [hin, List.append_assoc]) (by simp [hr, u8Bytes, u16Bytes, u32Bytes] <;> omega)]
    simp only [RRes.bind_ok]
    simp only [if_pos (show ASE_FILE_COMPRESSED_CEL = ASE_FILE_COMPRESSED_CEL from rfl), if_true]
    rw [Parser.nextU16_encoded (pre ++ u32Bytes csize ++ u16Bytes ASE_FILE_CHUNK_CEL ++ u16Bytes li ++ u16Bytes xx ++ u16Bytes yy ++ u8Bytes op ++ u16Bytes ASE_FILE_COMPRESSED_CEL ++ junk) (u16Bytes h ++ (comp ++ rest)) (w)
          (by simp [hin, List.append_assoc]) (by simp [hr, u8Bytes, u16Bytes, u32Bytes] <;> omega)]
    simp only [RRes.bind_ok]
    rw [Parser.nextU16_encoded (pre ++ u32Bytes csize ++ u16Bytes ASE_FILE_CHUNK_CEL ++ u16Bytes li ++ u16Bytes xx ++ u16Bytes yy ++ u8Bytes op ++ u16Bytes ASE_FILE_COMPRESSED_CEL ++ junk ++ u16Bytes w) (comp ++ rest) (h)
          (by simp [hin, List.append_assoc]) (by simp [hr, u8Bytes, u16Bytes, u32Bytes] <;> omega)]
    simp only [RRes.bind_ok]
    split
    case isFalse hge => exact absurd (by omega) hge
    case isTrue hle =>
      rw [Parser.next_n_encoded' (pre ++ u32Bytes csize ++ u16Bytes ASE_FILE_CHUNK_CEL ++ u16Bytes li ++ u16Bytes xx ++ u16Bytes yy ++ u8Bytes op ++ u16Bytes ASE_FILE_COMPRESSED_CEL ++ junk ++ u16Bytes w ++ u16Bytes h) (comp) (rest)
            (by omega)
            (by simp [hin, List.append_assoc]) (by simp [hr, u8Bytes, u16Bytes, u32Bytes] <;> omega)]
      simp only [RRes.bind_ok]
      rw [hinf]
      dsimp only
      simp only [Image.new_from_data]
      rw [if_neg hbad]
      simp only [RRes.bind_crash]

theorem compressed_cel_length_mismatch_cx :
    AsepriteFile.apply_chunk inflateEmpty c6st frame01 =
      .crash ("assertion failed") := by rfl

theorem compressed_cel_failure_modes_witness :
    ((List.replicate 7 0).length = 7 ∧ ([7] : List Nat).length + 26 = 27 ∧
      inflate0 [7] = .error ("inflate not invoked") ∧
      AsepriteFile.apply_chunk inflate0 c6st frame01 =
        .err (.corruptFile ("inflate not invoked"))) ∧
    ((List.replicate 7 0).length = 7 ∧ ([7] : List Nat).length + 26 = 27 ∧
      inflateEmpty [7] = .ok [] ∧ ¬(1 * 1 * 4 = ([] : List Nat).length) ∧
      AsepriteFile.apply_chunk inflateEmpty c6st frame01 =
        .crash ("assertion failed")) :=
  ⟨⟨rfl, rfl, rfl,
    compressed_cel_failure_modes.1 inflate0 c6st frame01 [] (List.replicate 7 0)
      [7] [] 27 0 0 0 255 1 1 ("inflate not invoked") rfl rfl rfl rfl rfl⟩,
   ⟨rfl, rfl, rfl, by decide,
    compressed_cel_failure_modes.2 inflateEmpty c6st frame01 [] (List.replicate 7 0)
      [7] [] [] 27 0 0 0 255 1 1 rfl rfl rfl (by decide) rfl rfl⟩⟩

/-- C7 (amended): drawing a patch with opacity 0 leaves the destination
unchanged provided every destination pixel with alpha 0 also has zero
RGB (and bytes are in range); otherwise the draw either completes with
the destination unchanged or panics (the out-of-bounds height slip or
an integral conversion).  Without that proviso the claim is false: the
`result_alpha == 0` arm of `draw_pixel` overwrites an alpha-0 pixel
with nonzero RGB by `(0,0,0,0)` (see the counterexample). -/
theorem draw_opacity_zero_preserves (img : Image) (x y : Int) (patch : Image)
    (hb : ∀ b ∈ img.data, b < 256)
    (hz : ∀ i < img.data.length, img.data.getD (4 * i + 3) 0 = 0 →
      img.data.getD (4 * i) 0 = 0 ∧ img.data.getD (4 * i + 1) 0 = 0 ∧
        img.data.getD (4 * i + 2) 0 = 0) :
    Image.draw img x y patch 0 = .ok img ∨
      ∃ m, Image.draw img x y patch 0 = .crash m := by
  by_cases hc1 : 32767 < patch.width ∨ 32767 < patch.height
  · simp only [Image.draw, if_pos hc1]
    exact .inr ⟨_, rfl⟩
  by_cases hc2 : 32767 < y + (patch.height : Int)
  · simp only [Image.draw, if_neg hc1, if_pos hc2]
    exact .inr ⟨_, rfl⟩
  by_cases hc3 : 0 < patch.height ∧ 32767 < x + (patch.width : Int)
  · simp only [Image.draw, if_neg hc1, if_neg hc2, if_pos hc3]
    exact .inr ⟨_, rfl⟩
  simp only [Image.draw, if_neg hc1, if_neg hc2, if_neg hc3]
  exact drawRows_opacity_zero img patch x y hb hz patch.height 0

theorem draw_opacity_zero_cx :
    Image.draw ⟨1, 1, [5, 0, 0, 0]⟩ 0 0 ⟨1, 1, [7, 7, 7, 0]⟩ 0 =
      .ok ⟨1, 1, [0, 0, 0, 0]⟩ ∧
    (Image.mk 1 1 [0, 0, 0, 0]) ≠ (Image.mk 1 1 [5, 0, 0, 0]) :=
  ⟨by rfl, by decide⟩

theorem draw_opacity_zero_preserves_witness :
    (∀ b ∈ (Image.mk 1 1 [1, 2, 3, 4]).data, b < 256) ∧
    (∀ i < (Image.mk 1 1 [1, 2, 3, 4]).data.length,
      (Image.mk 1 1 [1, 2, 3, 4]).data.getD (4 * i + 3) 0 = 0 →
      (Image.mk 1 1 [1, 2, 3, 4]).data.getD (4 * i) 0 = 0 ∧
        (Image.mk 1 1 [1, 2, 3, 4]).data.getD (4 * i + 1) 0 = 0 ∧
        (Image.mk 1 1 [1, 2, 3, 4]).data.getD (4 * i + 2) 0 = 0) ∧
    (Image.draw ⟨1, 1, [1, 2, 3, 4]⟩ 0 0 ⟨1, 1, [9, 9, 9, 9]⟩ 0 =
        .ok ⟨1, 1, [1, 2, 3, 4]⟩ ∨
      ∃ m, Image.draw ⟨1, 1, [1, 2, 3, 4]⟩ 0 0 ⟨1, 1, [9, 9, 9, 9]⟩ 0 =
        .crash m) :=
  ⟨by decide, by decide,
   draw_opacity_zero_preserves ⟨1, 1, [1, 2, 3, 4]⟩ 0 0 ⟨1, 1, [9, 9, 9, 9]⟩
     (by decide) (by decide)⟩

/-- C8 (amended): a file-header magic different from 0xA5E0, or a
frame-header magic different from 0xF1FA, aborts the load through a
failed `assert_eq!` — a panic, not a returned `CorruptFileError`. -/
theorem bad_magic_panics :
    (∀ (inflate : Inflate) (input : List Nat), 47 ≤ input.length →
      leVal ((input.drop 4).take 2) ≠ ASE_FILE_MAGIC →
      AsepriteFile.parse inflate input = .crash ("assertion failed")) ∧
    (∀ (inflate : Inflate) (st : AsepriteFile) (pre junk rest : List Nat)
      (fsize m nchunks dur : Nat),
      st.cur_frame < st.header.frames → junk.length = 6 →
      m ≠ ASE_FILE_FRAME_MAGIC →
      st.parser.input = pre ++ (u32Bytes fsize ++ (u16Bytes m ++
        (u16Bytes nchunks ++ (u16Bytes dur ++ (junk ++ rest))))) →
      st.parser.readerPos = pre.length →
      AsepriteFile.next_frame inflate st = .crash ("assertion failed")) := by
  constructor
  · intro inflate input h47 hm
    unfold AsepriteFile.parse AsepriteFile.parseStart
    rw [FileHeader.parse_new_eval input h47]
    simp only [RRes.bind_ok]
    rw [if_neg hm]
    simp only [RRes.bind_crash]
  · intro inflate st pre junk rest fsize m nchunks dur hcur hj hmagic hin hr
    unfold AsepriteFile.next_frame
    rw [if_neg (by omega)]
    simp only [AsepriteFile.next_frame_body]
    rw [Parser.nextU32_encoded (pre) (u16Bytes m ++ (u16Bytes nchunks ++ (u16Bytes dur ++ (junk ++ rest)))) (fsize)
          hin hr]
    simp only [RRes.bind_ok]
    rw [Parser.nextU16_encoded (pre ++ u32Bytes fsize) (u16Bytes nchunks ++ (u16Bytes dur ++ (junk ++ rest))) (m)
          (by simp [hin, List.append_assoc]) (by simp [hr, u8Bytes, u16Bytes, u32Bytes] <;> omega)]
    simp only [RRes.bind_ok]
    rw [Parser.nextU16_encoded (pre ++ u32Bytes fsize ++ u16Bytes m) (u16Bytes dur ++ (junk ++ rest)) (nchunks)
          (by simp [hin, List.append_assoc]) (by simp [hr, u8Bytes, u16Bytes, u32Bytes] <;> omega)]
    simp only [RRes.bind_ok]
    rw [Parser.nextU16_encoded (pre ++ u32Bytes fsize ++ u16Bytes m ++ u16Bytes nchunks) (junk ++ rest) (dur)
          (by simp [hin, List.append_assoc]) (by simp [hr, u8Bytes, u16Bytes, u32Bytes] <;> omega)]
    simp only [RRes.bind_ok]
    rw [show (6 : Nat) = junk.length from hj.symm,
        Parser.skip_encoded (pre ++ u32Bytes fsize ++ u16Bytes m ++ u16Bytes nchunks ++ u16Bytes dur) (junk) (rest)
          (by simp [hin, List.append_assoc]) (by simp [hr, u8Bytes, u16Bytes, u32Bytes] <;> omega)]
    simp only [RRes.bind_ok]
    rw [if_neg (by simpa [ASE_FILE_FRAME_MAGIC] using hmagic)]
    simp only [RRes.bind_crash]

theorem bad_magic_crash_cx :
    AsepriteFile.parse inflate0 c8input47 = .crash ("assertion failed") := by rfl

theorem bad_magic_panics_witness :
    (47 ≤ c8input47.length ∧ leVal ((c8input47.drop 4).take 2) ≠ ASE_FILE_MAGIC ∧
      AsepriteFile.parse inflate0 c8input47 = .crash ("assertion failed")) ∧
    (c8st.cur_frame < c8st.header.frames ∧ (0 : Nat) ≠ ASE_FILE_FRAME_MAGIC ∧
      AsepriteFile.next_frame inflate0 c8st = .crash ("assertion failed")) :=
  ⟨⟨by decide, by decide,
    bad_magic_panics.1 inflate0 c8input47 (by decide) (by decide)⟩,
   ⟨by decide, by decide,
    bad_magic_panics.2 inflate0 c8st [] (List.replicate 6 0) [] 16 0 0 0
      (by decide) rfl (by decide) rfl rfl⟩⟩
